import Mathlib

/-
Shallow embedding of the three AWS reconciler modules under src/library
(ec2_customer_gateway.py, ec2_vpn_gateway.py, ec2_vpn_connection.py).

Each Python manager class mutates fields of `self`; we model those fields
as a state record passed explicitly.  Remote AWS responses are supplied by
an environment record, one field per boto call the module makes; every
remote call issued by the module is recorded in a trace (a `List Call`) so
that frame properties such as "no mutating call is issued" can be stated.
`module.fail_json` aborts the whole invocation and is modelled with
`Except`; the uncaught Python `NameError` reachable in the customer
gateway `get_info` is a distinct `Failure`.  Python truthiness of an
optional string (`if self.id:`) is `otruthy` (None and the empty string
are falsy); boto resource objects are always truthy, so truthiness tests
on them become `Option.isSome` / `Option.isNone`.  boto calls whose
results are only tested for truthiness are modelled by `Bool`-valued
environment fields; `create_*` calls, whose result object is stored, by
`Option` resource values (`none` models a falsy result).
-/

/-- One remote AWS call, as issued by the modules.  `deleteTags` is never
issued by any of the three sources (no tag-removal call appears there); the
constructor exists so that the additive-only tagging property is a statement
about traces rather than true by the absence of a vocabulary. -/
inductive Call where
  | getAllCgws
  | getAllVgws
  | getAllVconns
  | getAllTags (rid : Option String)
  | fetchCgwById (cid : String)
  | fetchCgwByIp (ip : String)
  | fetchVgwById (gid : Option String)
  | fetchVconnById (vid : Option String)
  | createCgw (ty ip : Option String) (asn : Option Int)
  | createVgw (ty az : Option String)
  | createVconn (ty cgwId vgwId : Option String) (sro : Option Bool)
  | deleteCgw (cid : Option String)
  | deleteVgw (gid : Option String)
  | deleteVconn (vid : Option String)
  | attachVgw (gid vpc : Option String)
  | detachVgw (gid vpc : Option String)
  | createTags (rid : Option String) (pairs : List (String × String))
  | deleteTags (rid : Option String) (pairs : List (String × String))
  | enableProp (rt : String) (gw : Option String)
  | disableProp (rt : String) (gw : Option String)
deriving DecidableEq

/-- Abort of the invocation: `module.fail_json(msg=...)`, or the uncaught
Python NameError in the customer gateway `get_info`. -/
inductive Failure where
  | failJson (msg : String)
  | nameError
deriving DecidableEq

/-- Python truthiness of a string-or-None value: None and "" are falsy. -/
def otruthy : Option String → Bool
  | none => false
  | some s => !(s == "")

/-- Resource-creation calls (create_customer_gateway / create_vpn_gateway /
create_vpn_connection). -/
def isCreateCall : Call → Bool
  | Call.createCgw _ _ _ => true
  | Call.createVgw _ _ => true
  | Call.createVconn _ _ _ _ => true
  | _ => false

/-- Batch tag-creation calls (create_tags). -/
def isCreateTags : Call → Bool
  | Call.createTags _ _ => true
  | _ => false

/-- Tag-removal calls; no source line issues one. -/
def isTagRemoval : Call → Bool
  | Call.deleteTags _ _ => true
  | _ => false

/-- Calls that mutate remote AWS state (create, delete, attach, detach,
tag creation or removal, route-propagation toggles).  The get/fetch calls
are reads. -/
def isMutating : Call → Bool
  | Call.createCgw _ _ _ => true
  | Call.createVgw _ _ => true
  | Call.createVconn _ _ _ _ => true
  | Call.deleteCgw _ => true
  | Call.deleteVgw _ => true
  | Call.deleteVconn _ => true
  | Call.attachVgw _ _ => true
  | Call.detachVgw _ _ => true
  | Call.createTags _ _ => true
  | Call.deleteTags _ _ => true
  | Call.enableProp _ _ => true
  | Call.disableProp _ _ => true
  | _ => false

/-- Python dict assignment `d[k] = v`: replace the value when the key is
present, append otherwise. -/
def dictInsert (d : List (String × String)) (k v : String) :
    List (String × String) :=
  if d.any (fun p => p.1 == k) then
    d.map (fun p => if p.1 == k then (k, v) else p)
  else d ++ [(k, v)]

/-- Embedding of `tagdict = {}; for tag in gettags: tagdict[tag.name] = tag.value` —
turn the tag-object list returned by get_all_tags into a dict. -/
def toDict (ts : List (String × String)) : List (String × String) :=
  ts.foldl (fun d t => dictInsert d t.1 t.2) []

/-- Embedding of `set(a.items()).issubset(set(b.items()))` for dicts given as pair
lists: every pair of `a` occurs (by exact key+value equality) in `b`. -/
def pairsSubset (a b : List (String × String)) : Bool :=
  a.all (fun p => b.contains p)

/-- The dictadd loop of `_set_tags`: desired pairs not already present in
the remote tag dict, collected into a dict.  The source iterates
`set(self.tags.items())`; `self.tags` is a Python dict so its items have
pairwise distinct keys, and the resulting dict does not depend on the set
iteration order.  We iterate in list order. -/
def computeDictAdd (desired tagdict : List (String × String)) :
    List (String × String) :=
  desired.foldl
    (fun d p => if tagdict.contains p then d else dictInsert d p.1 p.2) []

/-- The calls issued by `_set_tags` (its body is textually identical in all
three modules): fetch the tags of `rid`, issue one batch create_tags call
when the computed difference is non-empty, then re-fetch.  `_set_tags`
assigns no field of `self`, so it is state-preserving. -/
def setTagsCalls (tagsFor : Option String → List (String × String))
    (desired : List (String × String)) (rid : Option String) : List Call :=
  let tagdict := toDict (tagsFor rid)
  let dictadd := computeDictAdd desired tagdict
  [Call.getAllTags rid]
    ++ (if dictadd.isEmpty then [] else [Call.createTags rid dictadd])
    ++ [Call.getAllTags rid]

/-- The status values the managers ever assign. -/
def statusOk (st : String) : Bool :=
  st == "gone" || st == "ok" || st == "created" || st == "deleted"

/-- The operations a manager exposes (lookup runs inside `__init__`). -/
inductive Op where
  | lookup
  | ensureOk
  | ensureGone
  | getInfo
deriving DecidableEq

/- ------------------------------------------------------------------
Customer gateway module (src/library/ec2_customer_gateway.py).
------------------------------------------------------------------ -/

/-- A boto CustomerGateway object, restricted to the attributes the module
reads. -/
structure Cgw where
  id : String
  ip_address : String
  bgp_asn : String
  type : String
deriving DecidableEq

/-- The fields of `CustomerGatewayManager` (module/region/connection
handles omitted: they carry no reconciliation state). -/
structure CgwState where
  ip_address : Option String
  id : Option String
  bgp_asn : Option Int
  type : Option String
  tags : List (String × String)
  changed : Bool
  status : String
  cgw : Option Cgw
deriving DecidableEq

/-- Remote responses for one invocation of the customer gateway module. -/
structure CgwEnv where
  allCgws : List Cgw
  tagsFor : Option String → List (String × String)
  createResult : Option Cgw
  deleteResult : Bool
  fetchById : String → Option Cgw
  fetchByIp : String → Option Cgw

/-- The dict returned by `get_info`: either the minimal report (fetch
failed or found nothing) or the full remote attribute report. -/
inductive CgwInfo where
  | minimal (ip_address : Option String) (id : Option String) (status : String)
  | full (ip_address : String) (id : String) (bgp_asn : String)
      (type : String) (status : String)
deriving DecidableEq

def cgwTooManyMsg : String :=
  "Found more than one customer gateway based on the supplied criteria, aborting"

/-- Candidates collected by the tag-scan loop of `_get_customer_gateway`. -/
def cgwTagMatches (env : CgwEnv) (tags : List (String × String)) : List Cgw :=
  env.allCgws.filter
    (fun c => !tags.isEmpty && pairsSubset tags (toDict (env.tagsFor (some c.id))))

/-- Embedding of `_get_customer_gateway` together with the `self.cgw = ...` assignment
performed at its only call site (`__init__`).  By id: linear scan, first
match wins.  Else by tags: subset match over the tags of every candidate;
exactly one match adopts the id; more than one is fail_json. -/
def cgwGetCustomerGateway (env : CgwEnv) (s : CgwState) :
    Except (Failure × List Call) (CgwState × List Call) :=
  let t0 := [Call.getAllCgws]
  if otruthy s.id then
    match env.allCgws.find? (fun c => s.id == some c.id) with
    | some c => .ok ({ s with status := "ok", cgw := some c }, t0)
    | none => .ok ({ s with cgw := none }, t0)
  else if !s.tags.isEmpty then
    let tagTrace := env.allCgws.map (fun c => Call.getAllTags (some c.id))
    match cgwTagMatches env s.tags with
    | [c] => .ok ({ s with id := some c.id, status := "ok", cgw := some c },
        t0 ++ tagTrace)
    | [] => .ok ({ s with cgw := none }, t0 ++ tagTrace)
    | _ => .error (Failure.failJson cgwTooManyMsg, t0 ++ tagTrace)
  else
    .ok ({ s with cgw := none }, t0)

/-- Embedding of `_create_cgw`: issue create_customer_gateway, store the result, and on
a truthy result record the id and mark changed/created. -/
def cgwCreateCgw (env : CgwEnv) (s : CgwState) : CgwState × List Call :=
  let s1 := { s with cgw := env.createResult }
  let s2 := match s1.cgw with
    | some c => { s1 with id := some c.id, changed := true, status := "created" }
    | none => s1
  (s2, [Call.createCgw s.type s.ip_address s.bgp_asn])

/-- Embedding of `_delete_cgw`. -/
def cgwDeleteCgw (env : CgwEnv) (s : CgwState) : CgwState × List Call :=
  let s1 := if env.deleteResult then
      { s with changed := true, status := "deleted" } else s
  (s1, [Call.deleteCgw s.id])

/-- Embedding of `_set_tags` (assigns no manager field). -/
def cgwSetTags (env : CgwEnv) (s : CgwState) : CgwState × List Call :=
  (s, setTagsCalls env.tagsFor s.tags s.id)

/-- Embedding of `ensure_ok`: create when the lookup found nothing, then reconcile tags
unconditionally. -/
def cgwEnsureOk (env : CgwEnv) (s : CgwState) : CgwState × List Call :=
  let r1 := if s.cgw.isNone then cgwCreateCgw env s else (s, [])
  let r2 := cgwSetTags env r1.1
  (r2.1, r1.2 ++ r2.2)

/-- Embedding of `ensure_gone`: delete only when the lookup found a resource. -/
def cgwEnsureGone (env : CgwEnv) (s : CgwState) : CgwState × List Call :=
  if s.cgw.isSome then cgwDeleteCgw env s else (s, [])

/-- Embedding of `get_info`.  The fetch sits inside `try/except`, but when both `id`
and `ip_address` are falsy neither branch of the try body runs, so the
local `check_aws` is never bound and the subsequent `if not check_aws:`
raises an uncaught NameError. -/
def cgwGetInfo (env : CgwEnv) (s : CgwState) :
    Except Failure (CgwInfo × List Call) :=
  if otruthy s.id then
    let i := s.id.getD ""
    match env.fetchById i with
    | some c => .ok (CgwInfo.full c.ip_address c.id c.bgp_asn c.type s.status,
        [Call.fetchCgwById i])
    | none => .ok (CgwInfo.minimal s.ip_address s.id s.status,
        [Call.fetchCgwById i])
  else if otruthy s.ip_address then
    let ip := s.ip_address.getD ""
    match env.fetchByIp ip with
    | some c => .ok (CgwInfo.full c.ip_address c.id c.bgp_asn c.type s.status,
        [Call.fetchCgwByIp ip])
    | none => .ok (CgwInfo.minimal s.ip_address s.id s.status,
        [Call.fetchCgwByIp ip])
  else
    .error Failure.nameError

/-- Manager state as `__init__` leaves it just before the lookup. -/
def cgwInitState (ip cid : Option String) (asn : Option Int)
    (ty : Option String) (tags : List (String × String)) : CgwState :=
  { ip_address := ip, id := cid, bgp_asn := asn, type := ty, tags := tags,
    changed := false, status := "gone", cgw := none }

/-- The `main` of the module after parameter parsing: construct the manager
(which performs the lookup), run ensure_ok / ensure_gone according to
`state`, and report `(changed, get_info())`. -/
def cgwRun (env : CgwEnv) (st : String) (ip cid : Option String)
    (asn : Option Int) (ty : Option String) (tags : List (String × String)) :
    Except (Failure × List Call) ((Bool × CgwInfo) × List Call) :=
  match cgwGetCustomerGateway env (cgwInitState ip cid asn ty tags) with
  | .error e => .error e
  | .ok (s1, t1) =>
    let r2 := if st == "present" then cgwEnsureOk env s1
      else if st == "absent" then cgwEnsureGone env s1
      else (s1, [])
    match cgwGetInfo env r2.1 with
    | .error f => .error (f, t1 ++ r2.2)
    | .ok (info, t3) => .ok ((r2.1.changed, info), t1 ++ r2.2 ++ t3)

/-- One manager operation as a state transformer (traces dropped; a
fail_json or uncaught exception aborts). -/
def cgwStep (env : CgwEnv) (op : Op) (s : CgwState) :
    Except Failure CgwState :=
  match op with
  | Op.lookup =>
    match cgwGetCustomerGateway env s with
    | .ok r => .ok r.1
    | .error e => .error e.1
  | Op.ensureOk => .ok (cgwEnsureOk env s).1
  | Op.ensureGone => .ok (cgwEnsureGone env s).1
  | Op.getInfo =>
    match cgwGetInfo env s with
    | .ok _ => .ok s
    | .error f => .error f

/-- A sequence of manager operations. -/
def cgwRunOps (env : CgwEnv) (s : CgwState) : List Op → Except Failure CgwState
  | [] => .ok s
  | op :: ops =>
    match cgwStep env op s with
    | .ok s1 => cgwRunOps env s1 ops
    | .error e => .error e

/- ------------------------------------------------------------------
VPN gateway module (src/library/ec2_vpn_gateway.py).
------------------------------------------------------------------ -/

/-- A boto VpnGateway object, restricted to the attributes the module
reads. -/
structure Vgw where
  id : String
  availability_zone : String
  type : String
deriving DecidableEq

/-- The fields of `VPNGatewayManager`. -/
structure VgwState where
  id : Option String
  type : Option String
  availability_zone : Option String
  vpc : Option String
  route_table_ids : List String
  tags : List (String × String)
  changed : Bool
  status : String
  attach_status : String
  vpn_gw : Option Vgw
deriving DecidableEq

/-- Remote responses for one invocation of the VPN gateway module.
`enableResult r` / `disableResult r` are the truthiness of the
route-propagation call for route table `r`. -/
structure VgwEnv where
  allVgws : List Vgw
  tagsFor : Option String → List (String × String)
  createResult : Option Vgw
  deleteResult : Bool
  attachResult : Bool
  detachResult : Bool
  enableResult : String → Bool
  disableResult : String → Bool
  fetchById : Option String → Option Vgw

/-- The dict returned by the VPN gateway `get_info`. -/
inductive VgwInfo where
  | minimal (id : Option String) (status : String)
  | full (id : String) (availability_zone : String) (type : String)
      (status : String) (attach_status : String)
deriving DecidableEq

def vgwTooManyMsg : String :=
  "Found more than one vpn gateway based on the supplied criteria, aborting"

/-- Candidates collected by the tag-scan loop of `_get_vpn_gateway`. -/
def vgwTagMatches (env : VgwEnv) (tags : List (String × String)) : List Vgw :=
  env.allVgws.filter
    (fun g => !tags.isEmpty && pairsSubset tags (toDict (env.tagsFor (some g.id))))

/-- Embedding of `_get_vpn_gateway` together with the `self.vpn_gw = ...` assignment at
its only call site (`__init__`). -/
def vgwGetVpnGateway (env : VgwEnv) (s : VgwState) :
    Except (Failure × List Call) (VgwState × List Call) :=
  let t0 := [Call.getAllVgws]
  if otruthy s.id then
    match env.allVgws.find? (fun g => s.id == some g.id) with
    | some g => .ok ({ s with status := "ok", vpn_gw := some g }, t0)
    | none => .ok ({ s with vpn_gw := none }, t0)
  else if !s.tags.isEmpty then
    let tagTrace := env.allVgws.map (fun g => Call.getAllTags (some g.id))
    match vgwTagMatches env s.tags with
    | [g] => .ok ({ s with id := some g.id, status := "ok", vpn_gw := some g },
        t0 ++ tagTrace)
    | [] => .ok ({ s with vpn_gw := none }, t0 ++ tagTrace)
    | _ => .error (Failure.failJson vgwTooManyMsg, t0 ++ tagTrace)
  else
    .ok ({ s with vpn_gw := none }, t0)

/-- Embedding of `_create_vpn_gw`. -/
def vgwCreateVgw (env : VgwEnv) (s : VgwState) : VgwState × List Call :=
  let s1 := { s with vpn_gw := env.createResult }
  let s2 := match s1.vpn_gw with
    | some g => { s1 with changed := true, status := "created", id := some g.id }
    | none => s1
  (s2, [Call.createVgw s.type s.availability_zone])

/-- Embedding of `_delete_vpn_gw`. -/
def vgwDeleteVgw (env : VgwEnv) (s : VgwState) : VgwState × List Call :=
  let s1 := if env.deleteResult then
      { s with changed := true, status := "deleted" } else s
  (s1, [Call.deleteVgw s.id])

/-- Embedding of `_attach_vpn_gw`. -/
def vgwAttachVgw (env : VgwEnv) (s : VgwState) : VgwState × List Call :=
  let s1 := if env.attachResult then
      { s with changed := true, attach_status := "attached" } else s
  (s1, [Call.attachVgw s.id s.vpc])

/-- Embedding of `_detach_vpn_gw`. -/
def vgwDetachVgw (env : VgwEnv) (s : VgwState) : VgwState × List Call :=
  let s1 := if env.detachResult then
      { s with changed := true, attach_status := "detached" } else s
  (s1, [Call.detachVgw s.id s.vpc])

/-- Embedding of `_enable_route_propagation`: one call per listed route table id;
`changed` is set when the collected truthy results are non-empty. -/
def vgwEnableRoute (env : VgwEnv) (s : VgwState) : VgwState × List Call :=
  let s1 := if s.route_table_ids.any (fun r => env.enableResult r) then
      { s with changed := true } else s
  (s1, s.route_table_ids.map (fun r => Call.enableProp r s.id))

/-- Embedding of `_disable_route_propagation`. -/
def vgwDisableRoute (env : VgwEnv) (s : VgwState) : VgwState × List Call :=
  let s1 := if s.route_table_ids.any (fun r => env.disableResult r) then
      { s with changed := true } else s
  (s1, s.route_table_ids.map (fun r => Call.disableProp r s.id))

/-- Embedding of `_set_tags` (body textually identical to the customer gateway one). -/
def vgwSetTags (env : VgwEnv) (s : VgwState) : VgwState × List Call :=
  (s, setTagsCalls env.tagsFor s.tags s.id)

/-- Embedding of `ensure_ok`: create when the lookup found nothing, reconcile tags
unconditionally, then attach when both the vpc id and the resource id are
truthy. -/
def vgwEnsureOk (env : VgwEnv) (s : VgwState) : VgwState × List Call :=
  let r1 := if s.vpn_gw.isNone then vgwCreateVgw env s else (s, [])
  let r2 := vgwSetTags env r1.1
  let r3 := if otruthy r2.1.vpc && otruthy r2.1.id then vgwAttachVgw env r2.1
    else (r2.1, [])
  (r3.1, r1.2 ++ r2.2 ++ r3.2)

/-- Embedding of `ensure_gone`: detach first whenever the vpc id and the resource id
are both truthy (even when the lookup found nothing), then delete only
when the lookup found a gateway. -/
def vgwEnsureGone (env : VgwEnv) (s : VgwState) : VgwState × List Call :=
  let r1 := if otruthy s.vpc && otruthy s.id then vgwDetachVgw env s else (s, [])
  let r2 := if r1.1.vpn_gw.isSome then vgwDeleteVgw env r1.1 else (r1.1, [])
  (r2.1, r1.2 ++ r2.2)

/-- Embedding of `get_info`: the fetch always runs inside try/except (also with
`self.id = None`), so this never raises. -/
def vgwGetInfo (env : VgwEnv) (s : VgwState) : VgwInfo × List Call :=
  match env.fetchById s.id with
  | some g => (VgwInfo.full g.id g.availability_zone g.type s.status
      s.attach_status, [Call.fetchVgwById s.id])
  | none => (VgwInfo.minimal s.id s.status, [Call.fetchVgwById s.id])

/-- Manager state as `__init__` leaves it just before the lookup.  The
module passes `route_table_ids=None` as the empty list: both are falsy and
the list is only iterated on the truthy branch. -/
def vgwInitState (gid ty az vpc : Option String) (rtids : List String)
    (tags : List (String × String)) : VgwState :=
  { id := gid, type := ty, availability_zone := az, vpc := vpc,
    route_table_ids := rtids, tags := tags, changed := false,
    status := "gone", attach_status := "detached", vpn_gw := none }

/-- The body of the VPN gateway `main` after a successful lookup: for each
of the two states, route propagation when `route_table_ids` is truthy and
a gateway was found, else the normal ensure path; finally
`(changed, get_info())`. -/
def vgwMainBody (env : VgwEnv) (st : String) (s1 : VgwState)
    (t1 : List Call) :
    Except (Failure × List Call) ((Bool × VgwInfo) × List Call) :=
  let r2 := if st == "present" then
      (if !s1.route_table_ids.isEmpty && s1.vpn_gw.isSome then
        vgwEnableRoute env s1
      else vgwEnsureOk env s1)
    else (s1, [])
  let r3 := if st == "absent" then
      (if !r2.1.route_table_ids.isEmpty && r2.1.vpn_gw.isSome then
        vgwDisableRoute env r2.1
      else vgwEnsureGone env r2.1)
    else (r2.1, [])
  let r4 := vgwGetInfo env r3.1
  .ok ((r3.1.changed, r4.1), t1 ++ r2.2 ++ r3.2 ++ r4.2)

/-- The `main` of the module after parameter parsing: lookup in the
constructor, then `vgwMainBody`. -/
def vgwRun (env : VgwEnv) (st : String) (gid ty az vpc : Option String)
    (rtids : List String) (tags : List (String × String)) :
    Except (Failure × List Call) ((Bool × VgwInfo) × List Call) :=
  match vgwGetVpnGateway env (vgwInitState gid ty az vpc rtids tags) with
  | .error e => .error e
  | .ok (s1, t1) => vgwMainBody env st s1 t1

/-- One VPN gateway manager operation as a state transformer. -/
def vgwStep (env : VgwEnv) (op : Op) (s : VgwState) :
    Except Failure VgwState :=
  match op with
  | Op.lookup =>
    match vgwGetVpnGateway env s with
    | .ok r => .ok r.1
    | .error e => .error e.1
  | Op.ensureOk => .ok (vgwEnsureOk env s).1
  | Op.ensureGone => .ok (vgwEnsureGone env s).1
  | Op.getInfo => .ok s

/-- A sequence of VPN gateway manager operations. -/
def vgwRunOps (env : VgwEnv) (s : VgwState) : List Op → Except Failure VgwState
  | [] => .ok s
  | op :: ops =>
    match vgwStep env op s with
    | .ok s1 => vgwRunOps env s1 ops
    | .error e => .error e

/- ------------------------------------------------------------------
VPN connection module (src/library/ec2_vpn_connection.py).
------------------------------------------------------------------ -/

/-- A boto VpnConnection object, restricted to the attributes the module
reads (attribute values kept opaque as strings). -/
structure Vconn where
  id : String
  state : String
  customer_gateway_configuration : String
  type : String
  customer_gateway_id : String
  vpn_gateway_id : String
  tunnels : String
  options : String
  static_routes : String
deriving DecidableEq

/-- The fields of `VPNConnectionManager`.  `_set_static_routes` and
`_delete_static_routes` are dead code (no call site), so `static_routes`
is carried but never read. -/
structure VconnState where
  id : Option String
  type : Option String
  cgw : Option String
  vpn_gw : Option String
  vpc : Option String
  static_routes_only : Option Bool
  static_routes : List String
  tags : List (String × String)
  changed : Bool
  status : String
  vpn_conn : Option Vconn
deriving DecidableEq

/-- Remote responses for one invocation of the VPN connection module. -/
structure VconnEnv where
  allVconns : List Vconn
  tagsFor : Option String → List (String × String)
  createResult : Option Vconn
  deleteResult : Bool
  fetchById : Option String → Option Vconn

/-- The dict returned by the VPN connection `get_info`. -/
inductive VconnInfo where
  | minimal (id : Option String) (status : String)
  | full (id : String) (state : String)
      (customer_gateway_configuration : String) (type : String)
      (customer_gateway_id : String) (vpn_gateway_id : String)
      (tunnels : String) (options : String) (static_routes : String)
      (status : String)
deriving DecidableEq

def vconnTooManyMsg : String :=
  "Found more than one vpn connection based on the supplied criteria, aborting"

/-- Candidates collected by the tag-scan loop of `_get_vpn_connection`. -/
def vconnTagMatches (env : VconnEnv) (tags : List (String × String)) :
    List Vconn :=
  env.allVconns.filter
    (fun v => !tags.isEmpty && pairsSubset tags (toDict (env.tagsFor (some v.id))))

/-- Embedding of `_get_vpn_connection` together with the `self.vpn_conn = ...`
assignment at its only call site (`__init__`). -/
def vconnGetVpnConnection (env : VconnEnv) (s : VconnState) :
    Except (Failure × List Call) (VconnState × List Call) :=
  let t0 := [Call.getAllVconns]
  if otruthy s.id then
    match env.allVconns.find? (fun v => s.id == some v.id) with
    | some v => .ok ({ s with status := "ok", vpn_conn := some v }, t0)
    | none => .ok ({ s with vpn_conn := none }, t0)
  else if !s.tags.isEmpty then
    let tagTrace := env.allVconns.map (fun v => Call.getAllTags (some v.id))
    match vconnTagMatches env s.tags with
    | [v] => .ok ({ s with id := some v.id, status := "ok", vpn_conn := some v },
        t0 ++ tagTrace)
    | [] => .ok ({ s with vpn_conn := none }, t0 ++ tagTrace)
    | _ => .error (Failure.failJson vconnTooManyMsg, t0 ++ tagTrace)
  else
    .ok ({ s with vpn_conn := none }, t0)

/-- Embedding of `_create_vpn_conn`. -/
def vconnCreateVconn (env : VconnEnv) (s : VconnState) :
    VconnState × List Call :=
  let s1 := { s with vpn_conn := env.createResult }
  let s2 := match s1.vpn_conn with
    | some v => { s1 with changed := true, status := "created", id := some v.id }
    | none => s1
  (s2, [Call.createVconn s.type s.cgw s.vpn_gw s.static_routes_only])

/-- Embedding of `_delete_vpn_conn`. -/
def vconnDeleteVconn (env : VconnEnv) (s : VconnState) :
    VconnState × List Call :=
  let s1 := if env.deleteResult then
      { s with changed := true, status := "deleted" } else s
  (s1, [Call.deleteVconn s.id])

/-- Embedding of `_set_tags` (body textually identical to the other two modules). -/
def vconnSetTags (env : VconnEnv) (s : VconnState) : VconnState × List Call :=
  (s, setTagsCalls env.tagsFor s.tags s.id)

/-- Embedding of `ensure_ok`. -/
def vconnEnsureOk (env : VconnEnv) (s : VconnState) : VconnState × List Call :=
  let r1 := if s.vpn_conn.isNone then vconnCreateVconn env s else (s, [])
  let r2 := vconnSetTags env r1.1
  (r2.1, r1.2 ++ r2.2)

/-- Embedding of `ensure_gone`. -/
def vconnEnsureGone (env : VconnEnv) (s : VconnState) :
    VconnState × List Call :=
  if s.vpn_conn.isSome then vconnDeleteVconn env s else (s, [])

/-- Embedding of `get_info`: the fetch always runs inside try/except, so this never
raises. -/
def vconnGetInfo (env : VconnEnv) (s : VconnState) : VconnInfo × List Call :=
  match env.fetchById s.id with
  | some v => (VconnInfo.full v.id v.state v.customer_gateway_configuration
      v.type v.customer_gateway_id v.vpn_gateway_id v.tunnels v.options
      v.static_routes s.status, [Call.fetchVconnById s.id])
  | none => (VconnInfo.minimal s.id s.status, [Call.fetchVconnById s.id])

/-- Manager state as `__init__` leaves it just before the lookup. -/
def vconnInitState (vid ty cgwId vgwId vpc : Option String)
    (sro : Option Bool) (routes : List String)
    (tags : List (String × String)) : VconnState :=
  { id := vid, type := ty, cgw := cgwId, vpn_gw := vgwId, vpc := vpc,
    static_routes_only := sro, static_routes := routes, tags := tags,
    changed := false, status := "gone", vpn_conn := none }

/-- The `main` of the module after parameter parsing. -/
def vconnRun (env : VconnEnv) (st : String) (vid ty cgwId vgwId vpc : Option String)
    (sro : Option Bool) (routes : List String)
    (tags : List (String × String)) :
    Except (Failure × List Call) ((Bool × VconnInfo) × List Call) :=
  match vconnGetVpnConnection env
      (vconnInitState vid ty cgwId vgwId vpc sro routes tags) with
  | .error e => .error e
  | .ok (s1, t1) =>
    let r2 := if st == "present" then vconnEnsureOk env s1
      else if st == "absent" then vconnEnsureGone env s1
      else (s1, [])
    let r3 := vconnGetInfo env r2.1
    .ok ((r2.1.changed, r3.1), t1 ++ r2.2 ++ r3.2)

/-- One VPN connection manager operation as a state transformer. -/
def vconnStep (env : VconnEnv) (op : Op) (s : VconnState) :
    Except Failure VconnState :=
  match op with
  | Op.lookup =>
    match vconnGetVpnConnection env s with
    | .ok r => .ok r.1
    | .error e => .error e.1
  | Op.ensureOk => .ok (vconnEnsureOk env s).1
  | Op.ensureGone => .ok (vconnEnsureGone env s).1
  | Op.getInfo => .ok s

/-- A sequence of VPN connection manager operations. -/
def vconnRunOps (env : VconnEnv) (s : VconnState) :
    List Op → Except Failure VconnState
  | [] => .ok s
  | op :: ops =>
    match vconnStep env op s with
    | .ok s1 => vconnRunOps env s1 ops
    | .error e => .error e

/- ------------------------------------------------------------------
Helper lemmas.
------------------------------------------------------------------ -/

/-- Inserting a key absent from a dict appends the pair. -/
theorem dictInsert_of_fresh (d : List (String × String)) (k v : String)
    (h : ∀ q ∈ d, q.1 ≠ k) : dictInsert d k v = d ++ [(k, v)] := by
  unfold dictInsert
  have hany : d.any (fun p => p.1 == k) = false := by
    simp only [List.any_eq_false]
    intro p hp
    simpa using h p hp
  simp [hany]

/-- The dictadd fold, generalized over the accumulator: with pairwise
distinct desired keys, also distinct from the accumulator keys, it
appends exactly the desired pairs missing from the remote dict. -/
theorem computeDictAdd_go (td : List (String × String)) :
    ∀ (d acc : List (String × String)),
      (d.map Prod.fst).Nodup →
      (∀ p ∈ d, ∀ q ∈ acc, p.1 ≠ q.1) →
      d.foldl (fun dd p => if td.contains p then dd else dictInsert dd p.1 p.2) acc
        = acc ++ d.filter (fun p => !td.contains p) := by
  intro d
  induction d with
  | nil => intro acc _ _; simp
  | cons p rest ih =>
    intro acc hnd hdisj
    rw [List.map_cons, List.nodup_cons] at hnd
    obtain ⟨hpnot, hnd1⟩ := hnd
    have hfresh : ∀ q ∈ rest, q.1 ≠ p.1 := fun q hq heq =>
      hpnot (heq ▸ List.mem_map_of_mem Prod.fst hq)
    by_cases hc : td.contains p
    · simp only [List.foldl_cons, if_pos hc]
      rw [ih acc hnd1 (fun q hq => hdisj q (List.mem_cons_of_mem p hq))]
      have hm : p ∈ td := by simpa using hc
      simp [List.filter_cons, hc, hm]
    · simp only [List.foldl_cons, if_neg hc]
      rw [dictInsert_of_fresh acc p.1 p.2
        (fun q hq => (hdisj p (List.mem_cons_self p rest) q hq).symm)]
      rw [ih (acc ++ [(p.1, p.2)]) hnd1 ?_]
      · have hm : p ∉ td := fun m => hc (by simpa)
        simp [List.filter_cons, hc, hm]
      · intro q hq r hr
        rcases List.mem_append.mp hr with hr | hr
        · exact hdisj q (List.mem_cons_of_mem p hq) r hr
        · simp only [List.mem_singleton] at hr
          subst hr
          exact hfresh q hq

/-- With pairwise distinct desired keys, dictadd is exactly the desired
pairs missing (by exact key+value equality) from the remote dict. -/
theorem computeDictAdd_eq_filter (desired td : List (String × String))
    (h : (desired.map Prod.fst).Nodup) :
    computeDictAdd desired td = desired.filter (fun p => !td.contains p) := by
  have hgo := computeDictAdd_go td desired [] h (by simp)
  simpa [computeDictAdd] using hgo

/-- When every desired pair is already in the remote dict, dictadd is
empty (no key-distinctness needed). -/
theorem computeDictAdd_nil_of_subset (desired td : List (String × String))
    (h : pairsSubset desired td = true) : computeDictAdd desired td = [] := by
  unfold pairsSubset at h
  rw [List.all_eq_true] at h
  induction desired with
  | nil => rfl
  | cons p rest ih =>
    have h1 : td.contains p = true := by simpa using h p (List.mem_cons_self p rest)
    have h2 : ∀ q ∈ rest, td.contains q = true :=
      fun q hq => h q (List.mem_cons_of_mem p hq)
    unfold computeDictAdd
    simp only [List.foldl_cons, if_pos h1]
    have := ih (by intro q hq; exact h2 q hq)
    simpa [computeDictAdd] using this

/-- Embedding of `_set_tags` issues no resource-creation call. -/
theorem setTagsCalls_no_create (f : Option String → List (String × String))
    (d : List (String × String)) (r : Option String) :
    (setTagsCalls f d r).filter isCreateCall = [] := by
  simp only [setTagsCalls]
  split <;> simp [isCreateCall]

/-- Embedding of `_set_tags` issues no tag-removal call. -/
theorem setTagsCalls_no_removal (f : Option String → List (String × String))
    (d : List (String × String)) (r : Option String) :
    (setTagsCalls f d r).filter isTagRemoval = [] := by
  simp only [setTagsCalls]
  split <;> simp [isTagRemoval]

/-- The tag-creation calls of `_set_tags`: none when dictadd is empty,
one batch call carrying dictadd otherwise. -/
theorem setTagsCalls_createTags (f : Option String → List (String × String))
    (d : List (String × String)) (r : Option String) :
    (setTagsCalls f d r).filter isCreateTags =
      (if (computeDictAdd d (toDict (f r))).isEmpty then []
       else [Call.createTags r (computeDictAdd d (toDict (f r)))]) := by
  simp only [setTagsCalls]
  split <;> rename_i h <;> simp [isCreateTags, h]

/-- A list of get_all_tags calls contains no mutating call. -/
theorem filter_isMutating_map_tags {α : Type} (g : α → Option String)
    (l : List α) :
    (l.map (fun c => Call.getAllTags (g c))).filter isMutating = [] := by
  induction l with
  | nil => rfl
  | cons a t ih => simp [isMutating, ih]

/-- Route-propagation enable calls are all mutating. -/
theorem filter_isMutating_map_enable (gid : Option String) (l : List String) :
    (l.map (fun r => Call.enableProp r gid)).filter isMutating
      = l.map (fun r => Call.enableProp r gid) := by
  induction l with
  | nil => rfl
  | cons a t ih => simp [isMutating, ih]

/-- Route-propagation disable calls are all mutating. -/
theorem filter_isMutating_map_disable (gid : Option String) (l : List String) :
    (l.map (fun r => Call.disableProp r gid)).filter isMutating
      = l.map (fun r => Call.disableProp r gid) := by
  induction l with
  | nil => rfl
  | cons a t ih => simp [isMutating, ih]

/-- Inversion of a successful customer gateway lookup: the trace is
read-only, the parameter fields and `changed` are untouched, `status` is
either unchanged or set to "ok", and a found resource has had its id
adopted (`self.id` equals the id of the resource). -/
theorem cgwLookup_inv (env : CgwEnv) (s s1 : CgwState) (t1 : List Call)
    (h : cgwGetCustomerGateway env s = .ok (s1, t1)) :
    t1.filter isMutating = [] ∧ s1.tags = s.tags ∧ s1.changed = s.changed ∧
      s1.ip_address = s.ip_address ∧ s1.bgp_asn = s.bgp_asn ∧
      s1.type = s.type ∧ (s1.status = s.status ∨ s1.status = "ok") ∧
      (∀ c, s1.cgw = some c → s1.id = some c.id) := by
  unfold cgwGetCustomerGateway at h
  by_cases hid : otruthy s.id
  · rw [if_pos hid] at h
    cases hfind : env.allCgws.find? (fun c => s.id == some c.id) with
    | some c =>
      rw [hfind] at h
      simp only [Except.ok.injEq, Prod.mk.injEq] at h
      obtain ⟨h1, h2⟩ := h
      subst h1; subst h2
      have hidc : s.id = some c.id := by
        have hpc := List.find?_some hfind
        simpa using hpc
      refine ⟨by simp [isMutating], rfl, rfl, rfl, rfl, rfl, Or.inr rfl, ?_⟩
      intro c0 hc0
      simp only [Option.some.injEq] at hc0
      subst hc0
      exact hidc
    | none =>
      rw [hfind] at h
      simp only [Except.ok.injEq, Prod.mk.injEq] at h
      obtain ⟨h1, h2⟩ := h
      subst h1; subst h2
      exact ⟨by simp [isMutating], rfl, rfl, rfl, rfl, rfl, Or.inl rfl,
        fun c0 hc0 => by simp at hc0⟩
  · rw [if_neg hid] at h
    by_cases htags : !s.tags.isEmpty
    · rw [if_pos htags] at h
      cases hlist : cgwTagMatches env s.tags with
      | nil =>
        rw [hlist] at h
        simp only [Except.ok.injEq, Prod.mk.injEq] at h
        obtain ⟨h1, h2⟩ := h
        subst h1; subst h2
        refine ⟨?_, rfl, rfl, rfl, rfl, rfl, Or.inl rfl,
          fun c0 hc0 => by simp at hc0⟩
        simp [List.filter_append, isMutating, filter_isMutating_map_tags]
      | cons c rest =>
        cases rest with
        | nil =>
          rw [hlist] at h
          simp only [Except.ok.injEq, Prod.mk.injEq] at h
          obtain ⟨h1, h2⟩ := h
          subst h1; subst h2
          refine ⟨?_, rfl, rfl, rfl, rfl, rfl, Or.inr rfl, ?_⟩
          · simp [List.filter_append, isMutating, filter_isMutating_map_tags]
          · intro c0 hc0
            simp only [Option.some.injEq] at hc0
            subst hc0
            rfl
        | cons c2 rest2 =>
          rw [hlist] at h
          simp at h
    · rw [if_neg htags] at h
      simp only [Except.ok.injEq, Prod.mk.injEq] at h
      obtain ⟨h1, h2⟩ := h
      subst h1; subst h2
      exact ⟨by simp [isMutating], rfl, rfl, rfl, rfl, rfl, Or.inl rfl,
        fun c0 hc0 => by simp at hc0⟩

/-- Inversion of a successful VPN gateway lookup (same shape as the
customer gateway one; additionally preserves vpc, route_table_ids and
attach_status). -/
theorem vgwLookup_inv (env : VgwEnv) (s s1 : VgwState) (t1 : List Call)
    (h : vgwGetVpnGateway env s = .ok (s1, t1)) :
    t1.filter isMutating = [] ∧ s1.tags = s.tags ∧ s1.changed = s.changed ∧
      s1.vpc = s.vpc ∧ s1.route_table_ids = s.route_table_ids ∧
      s1.type = s.type ∧ s1.availability_zone = s.availability_zone ∧
      s1.attach_status = s.attach_status ∧
      (s1.status = s.status ∨ s1.status = "ok") ∧
      (∀ g, s1.vpn_gw = some g → s1.id = some g.id) := by
  unfold vgwGetVpnGateway at h
  by_cases hid : otruthy s.id
  · rw [if_pos hid] at h
    cases hfind : env.allVgws.find? (fun g => s.id == some g.id) with
    | some g =>
      rw [hfind] at h
      simp only [Except.ok.injEq, Prod.mk.injEq] at h
      obtain ⟨h1, h2⟩ := h
      subst h1; subst h2
      have hidg : s.id = some g.id := by
        have hpc := List.find?_some hfind
        simpa using hpc
      refine ⟨by simp [isMutating], rfl, rfl, rfl, rfl, rfl, rfl, rfl,
        Or.inr rfl, ?_⟩
      intro g0 hg0
      simp only [Option.some.injEq] at hg0
      subst hg0
      exact hidg
    | none =>
      rw [hfind] at h
      simp only [Except.ok.injEq, Prod.mk.injEq] at h
      obtain ⟨h1, h2⟩ := h
      subst h1; subst h2
      exact ⟨by simp [isMutating], rfl, rfl, rfl, rfl, rfl, rfl, rfl,
        Or.inl rfl, fun g0 hg0 => by simp at hg0⟩
  · rw [if_neg hid] at h
    by_cases htags : !s.tags.isEmpty
    · rw [if_pos htags] at h
      cases hlist : vgwTagMatches env s.tags with
      | nil =>
        rw [hlist] at h
        simp only [Except.ok.injEq, Prod.mk.injEq] at h
        obtain ⟨h1, h2⟩ := h
        subst h1; subst h2
        refine ⟨?_, rfl, rfl, rfl, rfl, rfl, rfl, rfl, Or.inl rfl,
          fun g0 hg0 => by simp at hg0⟩
        simp [List.filter_append, isMutating, filter_isMutating_map_tags]
      | cons g rest =>
        cases rest with
        | nil =>
          rw [hlist] at h
          simp only [Except.ok.injEq, Prod.mk.injEq] at h
          obtain ⟨h1, h2⟩ := h
          subst h1; subst h2
          refine ⟨?_, rfl, rfl, rfl, rfl, rfl, rfl, rfl, Or.inr rfl, ?_⟩
          · simp [List.filter_append, isMutating, filter_isMutating_map_tags]
          · intro g0 hg0
            simp only [Option.some.injEq] at hg0
            subst hg0
            rfl
        | cons g2 rest2 =>
          rw [hlist] at h
          simp at h
    · rw [if_neg htags] at h
      simp only [Except.ok.injEq, Prod.mk.injEq] at h
      obtain ⟨h1, h2⟩ := h
      subst h1; subst h2
      exact ⟨by simp [isMutating], rfl, rfl, rfl, rfl, rfl, rfl, rfl,
        Or.inl rfl, fun g0 hg0 => by simp at hg0⟩

/-- Inversion of a successful VPN connection lookup. -/
theorem vconnLookup_inv (env : VconnEnv) (s s1 : VconnState) (t1 : List Call)
    (h : vconnGetVpnConnection env s = .ok (s1, t1)) :
    t1.filter isMutating = [] ∧ s1.tags = s.tags ∧ s1.changed = s.changed ∧
      s1.type = s.type ∧ s1.cgw = s.cgw ∧ s1.vpn_gw = s.vpn_gw ∧
      s1.static_routes_only = s.static_routes_only ∧
      (s1.status = s.status ∨ s1.status = "ok") ∧
      (∀ v, s1.vpn_conn = some v → s1.id = some v.id) := by
  unfold vconnGetVpnConnection at h
  by_cases hid : otruthy s.id
  · rw [if_pos hid] at h
    cases hfind : env.allVconns.find? (fun v => s.id == some v.id) with
    | some v =>
      rw [hfind] at h
      simp only [Except.ok.injEq, Prod.mk.injEq] at h
      obtain ⟨h1, h2⟩ := h
      subst h1; subst h2
      have hidv : s.id = some v.id := by
        have hpc := List.find?_some hfind
        simpa using hpc
      refine ⟨by simp [isMutating], rfl, rfl, rfl, rfl, rfl, rfl,
        Or.inr rfl, ?_⟩
      intro v0 hv0
      simp only [Option.some.injEq] at hv0
      subst hv0
      exact hidv
    | none =>
      rw [hfind] at h
      simp only [Except.ok.injEq, Prod.mk.injEq] at h
      obtain ⟨h1, h2⟩ := h
      subst h1; subst h2
      exact ⟨by simp [isMutating], rfl, rfl, rfl, rfl, rfl, rfl,
        Or.inl rfl, fun v0 hv0 => by simp at hv0⟩
  · rw [if_neg hid] at h
    by_cases htags : !s.tags.isEmpty
    · rw [if_pos htags] at h
      cases hlist : vconnTagMatches env s.tags with
      | nil =>
        rw [hlist] at h
        simp only [Except.ok.injEq, Prod.mk.injEq] at h
        obtain ⟨h1, h2⟩ := h
        subst h1; subst h2
        refine ⟨?_, rfl, rfl, rfl, rfl, rfl, rfl, Or.inl rfl,
          fun v0 hv0 => by simp at hv0⟩
        simp [List.filter_append, isMutating, filter_isMutating_map_tags]
      | cons v rest =>
        cases rest with
        | nil =>
          rw [hlist] at h
          simp only [Except.ok.injEq, Prod.mk.injEq] at h
          obtain ⟨h1, h2⟩ := h
          subst h1; subst h2
          refine ⟨?_, rfl, rfl, rfl, rfl, rfl, rfl, Or.inr rfl, ?_⟩
          · simp [List.filter_append, isMutating, filter_isMutating_map_tags]
          · intro v0 hv0
            simp only [Option.some.injEq] at hv0
            subst hv0
            rfl
        | cons v2 rest2 =>
          rw [hlist] at h
          simp at h
    · rw [if_neg htags] at h
      simp only [Except.ok.injEq, Prod.mk.injEq] at h
      obtain ⟨h1, h2⟩ := h
      subst h1; subst h2
      exact ⟨by simp [isMutating], rfl, rfl, rfl, rfl, rfl, rfl,
        Or.inl rfl, fun v0 hv0 => by simp at hv0⟩

/-- With the id falsy, tags truthy and at least two tag-subset matches,
the customer gateway lookup aborts with the "more than one" fail_json and
a read-only trace. -/
theorem cgwLookup_toomany (env : CgwEnv) (s : CgwState)
    (hid : otruthy s.id = false) (htags : s.tags ≠ [])
    (hn : 2 ≤ (cgwTagMatches env s.tags).length) :
    cgwGetCustomerGateway env s = .error (Failure.failJson cgwTooManyMsg,
      Call.getAllCgws :: env.allCgws.map (fun c => Call.getAllTags (some c.id))) := by
  unfold cgwGetCustomerGateway
  rw [if_neg (by simp [hid])]
  rw [if_pos (by simpa using htags)]
  cases hlist : cgwTagMatches env s.tags with
  | nil => rw [hlist] at hn; simp at hn
  | cons c rest =>
    cases rest with
    | nil => rw [hlist] at hn; simp at hn
    | cons c2 rest2 => rfl

/-- VPN gateway version of `cgwLookup_toomany`. -/
theorem vgwLookup_toomany (env : VgwEnv) (s : VgwState)
    (hid : otruthy s.id = false) (htags : s.tags ≠ [])
    (hn : 2 ≤ (vgwTagMatches env s.tags).length) :
    vgwGetVpnGateway env s = .error (Failure.failJson vgwTooManyMsg,
      Call.getAllVgws :: env.allVgws.map (fun g => Call.getAllTags (some g.id))) := by
  unfold vgwGetVpnGateway
  rw [if_neg (by simp [hid])]
  rw [if_pos (by simpa using htags)]
  cases hlist : vgwTagMatches env s.tags with
  | nil => rw [hlist] at hn; simp at hn
  | cons g rest =>
    cases rest with
    | nil => rw [hlist] at hn; simp at hn
    | cons g2 rest2 => rfl

/-- VPN connection version of `cgwLookup_toomany`. -/
theorem vconnLookup_toomany (env : VconnEnv) (s : VconnState)
    (hid : otruthy s.id = false) (htags : s.tags ≠ [])
    (hn : 2 ≤ (vconnTagMatches env s.tags).length) :
    vconnGetVpnConnection env s = .error (Failure.failJson vconnTooManyMsg,
      Call.getAllVconns :: env.allVconns.map (fun v => Call.getAllTags (some v.id))) := by
  unfold vconnGetVpnConnection
  rw [if_neg (by simp [hid])]
  rw [if_pos (by simpa using htags)]
  cases hlist : vconnTagMatches env s.tags with
  | nil => rw [hlist] at hn; simp at hn
  | cons v rest =>
    cases rest with
    | nil => rw [hlist] at hn; simp at hn
    | cons v2 rest2 => rfl

/- ------------------------------------------------------------------
Claims.
------------------------------------------------------------------ -/

/-- C1: for every resource kind, if the lookup found zero matching remote
resources (the resource field of the manager is `none`) and the create call
returns a resource, `ensure_ok` issues exactly one create call, records
the newly assigned id on the manager, and leaves the manager with
`changed = true` and `status = "created"`. -/
theorem claim_C1_ensure_ok_creates_when_absent :
    (∀ (env : CgwEnv) (s : CgwState) (c : Cgw), s.cgw = none →
      env.createResult = some c →
        (cgwEnsureOk env s).2.filter isCreateCall
            = [Call.createCgw s.type s.ip_address s.bgp_asn] ∧
          (cgwEnsureOk env s).1.id = some c.id ∧
          (cgwEnsureOk env s).1.changed = true ∧
          (cgwEnsureOk env s).1.status = "created") ∧
    (∀ (env : VgwEnv) (s : VgwState) (g : Vgw), s.vpn_gw = none →
      env.createResult = some g →
        (vgwEnsureOk env s).2.filter isCreateCall
            = [Call.createVgw s.type s.availability_zone] ∧
          (vgwEnsureOk env s).1.id = some g.id ∧
          (vgwEnsureOk env s).1.changed = true ∧
          (vgwEnsureOk env s).1.status = "created") ∧
    (∀ (env : VconnEnv) (s : VconnState) (v : Vconn), s.vpn_conn = none →
      env.createResult = some v →
        (vconnEnsureOk env s).2.filter isCreateCall
            = [Call.createVconn s.type s.cgw s.vpn_gw s.static_routes_only] ∧
          (vconnEnsureOk env s).1.id = some v.id ∧
          (vconnEnsureOk env s).1.changed = true ∧
          (vconnEnsureOk env s).1.status = "created") := by
  refine ⟨?_, ?_, ?_⟩
  · intro env s c h1 h2
    simp [cgwEnsureOk, cgwCreateCgw, cgwSetTags, h1, h2, List.filter_append,
      setTagsCalls_no_create, isCreateCall]
  · intro env s g h1 h2
    unfold vgwEnsureOk vgwCreateVgw vgwSetTags vgwAttachVgw
    simp only [h1, h2, Option.isNone_none, if_true]
    split
    · split <;>
        simp [List.filter_append, setTagsCalls_no_create, isCreateCall]
    · simp [List.filter_append, setTagsCalls_no_create, isCreateCall]
  · intro env s v h1 h2
    simp [vconnEnsureOk, vconnCreateVconn, vconnSetTags, h1, h2,
      List.filter_append, setTagsCalls_no_create, isCreateCall]

/- Concrete fixtures used by the witnesses and counterexamples. -/

def cgwA : Cgw :=
  { id := "cgw-1", ip_address := "1.1.1.1", bgp_asn := "65000", type := "ipsec.1" }

def vgwA : Vgw :=
  { id := "vgw-1", availability_zone := "us-west-2a", type := "ipsec.1" }

def vconnA : Vconn :=
  { id := "vpn-1", state := "available", customer_gateway_configuration := "cfg",
    type := "ipsec.1", customer_gateway_id := "cgw-1", vpn_gateway_id := "vgw-1",
    tunnels := "[]", options := "opts", static_routes := "[]" }

def tagsName : List (String × String) := [("Name", "example")]

def sCgw0 : CgwState :=
  cgwInitState (some ("1.1.1.1")) none (some 65000) (some ("ipsec.1")) tagsName

def envCgw0 : CgwEnv :=
  { allCgws := [], tagsFor := fun _ => [], createResult := some cgwA,
    deleteResult := true, fetchById := fun _ => none, fetchByIp := fun _ => none }

def sVgw0 : VgwState :=
  vgwInitState none (some ("ipsec.1")) (some ("us-west-2a")) (some ("vpc-1"))
    [] tagsName

def envVgw0 : VgwEnv :=
  { allVgws := [], tagsFor := fun _ => [], createResult := some vgwA,
    deleteResult := true, attachResult := true, detachResult := true,
    enableResult := fun _ => true, disableResult := fun _ => true,
    fetchById := fun _ => none }

def sVconn0 : VconnState :=
  vconnInitState none (some ("ipsec.1")) (some ("cgw-1")) (some ("vgw-1"))
    (some ("vpc-1")) (some false) [] tagsName

def envVconn0 : VconnEnv :=
  { allVconns := [], tagsFor := fun _ => [], createResult := some vconnA,
    deleteResult := true, fetchById := fun _ => none }

/-- Witness for C1: at a concrete empty remote environment, the three
hypotheses hold and the conclusion follows by the claim theorem. -/
theorem claim_C1_witness :
    (sCgw0.cgw = none ∧ envCgw0.createResult = some cgwA ∧
      (cgwEnsureOk envCgw0 sCgw0).2.filter isCreateCall
          = [Call.createCgw sCgw0.type sCgw0.ip_address sCgw0.bgp_asn] ∧
      (cgwEnsureOk envCgw0 sCgw0).1.id = some cgwA.id ∧
      (cgwEnsureOk envCgw0 sCgw0).1.changed = true ∧
      (cgwEnsureOk envCgw0 sCgw0).1.status = "created") ∧
    (sVgw0.vpn_gw = none ∧ envVgw0.createResult = some vgwA ∧
      (vgwEnsureOk envVgw0 sVgw0).2.filter isCreateCall
          = [Call.createVgw sVgw0.type sVgw0.availability_zone] ∧
      (vgwEnsureOk envVgw0 sVgw0).1.id = some vgwA.id ∧
      (vgwEnsureOk envVgw0 sVgw0).1.changed = true ∧
      (vgwEnsureOk envVgw0 sVgw0).1.status = "created") ∧
    (sVconn0.vpn_conn = none ∧ envVconn0.createResult = some vconnA ∧
      (vconnEnsureOk envVconn0 sVconn0).2.filter isCreateCall
          = [Call.createVconn sVconn0.type sVconn0.cgw sVconn0.vpn_gw
              sVconn0.static_routes_only] ∧
      (vconnEnsureOk envVconn0 sVconn0).1.id = some vconnA.id ∧
      (vconnEnsureOk envVconn0 sVconn0).1.changed = true ∧
      (vconnEnsureOk envVconn0 sVconn0).1.status = "created") :=
  ⟨⟨rfl, rfl, claim_C1_ensure_ok_creates_when_absent.1 envCgw0 sCgw0 cgwA rfl rfl⟩,
   ⟨rfl, rfl, claim_C1_ensure_ok_creates_when_absent.2.1 envVgw0 sVgw0 vgwA rfl rfl⟩,
   ⟨rfl, rfl, claim_C1_ensure_ok_creates_when_absent.2.2 envVconn0 sVconn0 vconnA rfl rfl⟩⟩

/-- C2: for every resource kind, if the lookup found exactly one matching
remote resource (the manager holds that resource), `ensure_ok` issues no
create call but still performs tag reconciliation on that resource: its
trace is exactly the `_set_tags` trace against the manager id (plus, for
the VPN gateway, the conditional attach call), and a lookup that found a
resource adopted the id of that resource. -/
theorem claim_C2_ensure_ok_no_create_still_tags :
    (∀ (env : CgwEnv) (s : CgwState) (c : Cgw), s.cgw = some c →
      (cgwEnsureOk env s).2.filter isCreateCall = [] ∧
      (cgwEnsureOk env s).2 = setTagsCalls env.tagsFor s.tags s.id) ∧
    (∀ (env : VgwEnv) (s : VgwState) (g : Vgw), s.vpn_gw = some g →
      (vgwEnsureOk env s).2.filter isCreateCall = [] ∧
      (vgwEnsureOk env s).2 = setTagsCalls env.tagsFor s.tags s.id
        ++ (if otruthy s.vpc && otruthy s.id then [Call.attachVgw s.id s.vpc]
            else [])) ∧
    (∀ (env : VconnEnv) (s : VconnState) (v : Vconn), s.vpn_conn = some v →
      (vconnEnsureOk env s).2.filter isCreateCall = [] ∧
      (vconnEnsureOk env s).2 = setTagsCalls env.tagsFor s.tags s.id) ∧
    (∀ (env : CgwEnv) (s s1 : CgwState) (t1 : List Call) (c : Cgw),
      cgwGetCustomerGateway env s = .ok (s1, t1) → s1.cgw = some c →
        s1.id = some c.id) ∧
    (∀ (env : VgwEnv) (s s1 : VgwState) (t1 : List Call) (g : Vgw),
      vgwGetVpnGateway env s = .ok (s1, t1) → s1.vpn_gw = some g →
        s1.id = some g.id) ∧
    (∀ (env : VconnEnv) (s s1 : VconnState) (t1 : List Call) (v : Vconn),
      vconnGetVpnConnection env s = .ok (s1, t1) → s1.vpn_conn = some v →
        s1.id = some v.id) := by
  refine ⟨?_, ?_, ?_, ?_, ?_, ?_⟩
  · intro env s c h
    simp [cgwEnsureOk, cgwSetTags, h, setTagsCalls_no_create]
  · intro env s g h
    have hnone : s.vpn_gw.isNone = false := by rw [h]; rfl
    unfold vgwEnsureOk vgwSetTags vgwAttachVgw
    rw [hnone]
    simp only [Bool.false_eq_true, if_false]
    by_cases hvc : (otruthy s.vpc && otruthy s.id) = true
    · constructor
      · rw [if_pos hvc]
        simp [List.filter_append, setTagsCalls_no_create, isCreateCall]
      · rw [if_pos hvc, if_pos hvc]
        simp
    · constructor
      · rw [if_neg hvc]
        simp [List.filter_append, setTagsCalls_no_create, isCreateCall]
      · rw [if_neg hvc, if_neg hvc]
        simp
  · intro env s v h
    simp [vconnEnsureOk, vconnSetTags, h, setTagsCalls_no_create]
  · intro env s s1 t1 c h hc
    exact (cgwLookup_inv env s s1 t1 h).2.2.2.2.2.2.2 c hc
  · intro env s s1 t1 g h hg
    exact (vgwLookup_inv env s s1 t1 h).2.2.2.2.2.2.2.2.2 g hg
  · intro env s s1 t1 v h hv
    exact (vconnLookup_inv env s s1 t1 h).2.2.2.2.2.2.2.2 v hv

def envCgwFind : CgwEnv :=
  { envCgw0 with allCgws := [cgwA], tagsFor := fun _ => tagsName }

def sCgw1 : CgwState :=
  { sCgw0 with id := some cgwA.id, status := "ok", cgw := some cgwA }

def envVgwFind : VgwEnv :=
  { envVgw0 with allVgws := [vgwA], tagsFor := fun _ => tagsName }

def sVgw1 : VgwState :=
  { sVgw0 with id := some vgwA.id, status := "ok", vpn_gw := some vgwA }

def envVconnFind : VconnEnv :=
  { envVconn0 with allVconns := [vconnA], tagsFor := fun _ => tagsName }

def sVconn1 : VconnState :=
  { sVconn0 with id := some vconnA.id, status := "ok", vpn_conn := some vconnA }

/-- Witness for C2 at concrete inputs: a manager holding a found resource
(first three parts), and a tag lookup that finds exactly one resource and
adopts its id (last three parts). -/
theorem claim_C2_witness :
    (sCgw1.cgw = some cgwA ∧
      (cgwEnsureOk envCgw0 sCgw1).2.filter isCreateCall = [] ∧
      (cgwEnsureOk envCgw0 sCgw1).2
          = setTagsCalls envCgw0.tagsFor sCgw1.tags sCgw1.id) ∧
    (sVgw1.vpn_gw = some vgwA ∧
      (vgwEnsureOk envVgw0 sVgw1).2.filter isCreateCall = [] ∧
      (vgwEnsureOk envVgw0 sVgw1).2
          = setTagsCalls envVgw0.tagsFor sVgw1.tags sVgw1.id
            ++ (if otruthy sVgw1.vpc && otruthy sVgw1.id then
                [Call.attachVgw sVgw1.id sVgw1.vpc] else [])) ∧
    (sVconn1.vpn_conn = some vconnA ∧
      (vconnEnsureOk envVconn0 sVconn1).2.filter isCreateCall = [] ∧
      (vconnEnsureOk envVconn0 sVconn1).2
          = setTagsCalls envVconn0.tagsFor sVconn1.tags sVconn1.id) ∧
    (cgwGetCustomerGateway envCgwFind sCgw0
        = .ok (sCgw1, [Call.getAllCgws, Call.getAllTags (some cgwA.id)]) ∧
      sCgw1.cgw = some cgwA ∧ sCgw1.id = some cgwA.id) ∧
    (vgwGetVpnGateway envVgwFind sVgw0
        = .ok (sVgw1, [Call.getAllVgws, Call.getAllTags (some vgwA.id)]) ∧
      sVgw1.vpn_gw = some vgwA ∧ sVgw1.id = some vgwA.id) ∧
    (vconnGetVpnConnection envVconnFind sVconn0
        = .ok (sVconn1, [Call.getAllVconns, Call.getAllTags (some vconnA.id)]) ∧
      sVconn1.vpn_conn = some vconnA ∧ sVconn1.id = some vconnA.id) :=
  ⟨⟨rfl, claim_C2_ensure_ok_no_create_still_tags.1 envCgw0 sCgw1 cgwA rfl⟩,
   ⟨rfl, claim_C2_ensure_ok_no_create_still_tags.2.1 envVgw0 sVgw1 vgwA rfl⟩,
   ⟨rfl, claim_C2_ensure_ok_no_create_still_tags.2.2.1 envVconn0 sVconn1 vconnA rfl⟩,
   ⟨rfl, rfl, claim_C2_ensure_ok_no_create_still_tags.2.2.2.1 envCgwFind sCgw0
      sCgw1 [Call.getAllCgws, Call.getAllTags (some cgwA.id)] cgwA rfl rfl⟩,
   ⟨rfl, rfl, claim_C2_ensure_ok_no_create_still_tags.2.2.2.2.1 envVgwFind sVgw0
      sVgw1 [Call.getAllVgws, Call.getAllTags (some vgwA.id)] vgwA rfl rfl⟩,
   ⟨rfl, rfl, claim_C2_ensure_ok_no_create_still_tags.2.2.2.2.2 envVconnFind
      sVconn0 sVconn1 [Call.getAllVconns, Call.getAllTags (some vconnA.id)]
      vconnA rfl rfl⟩⟩

def stPresent : String := "present"

def stAbsent : String := "absent"

/-- Trace accumulated by a tag lookup before its fail_json abort. -/
def cgwAbortTrace (env : CgwEnv) : List Call :=
  Call.getAllCgws :: env.allCgws.map (fun c => Call.getAllTags (some c.id))

/-- VPN gateway version of `cgwAbortTrace`. -/
def vgwAbortTrace (env : VgwEnv) : List Call :=
  Call.getAllVgws :: env.allVgws.map (fun g => Call.getAllTags (some g.id))

/-- VPN connection version of `cgwAbortTrace`. -/
def vconnAbortTrace (env : VconnEnv) : List Call :=
  Call.getAllVconns :: env.allVconns.map (fun v => Call.getAllTags (some v.id))

/-- C3: for every resource kind, when more than one remote resource
matches the supplied tag-subset criteria (id falsy, tags truthy), the
whole invocation — for state "present" (ensure_ok) as well as state
"absent" (ensure_gone) — aborts with the fatal "found more than one"
fail_json, and the trace accumulated before the abort contains no mutating
call. -/
theorem claim_C3_more_than_one_aborts :
    (∀ (env : CgwEnv) (ip cid : Option String) (asn : Option Int)
      (ty : Option String) (tags : List (String × String)),
      otruthy cid = false → tags ≠ [] → 2 ≤ (cgwTagMatches env tags).length →
        cgwRun env stPresent ip cid asn ty tags
            = .error (Failure.failJson cgwTooManyMsg, cgwAbortTrace env) ∧
          cgwRun env stAbsent ip cid asn ty tags
            = .error (Failure.failJson cgwTooManyMsg, cgwAbortTrace env) ∧
          (cgwAbortTrace env).filter isMutating = []) ∧
    (∀ (env : VgwEnv) (gid ty az vpc : Option String) (rtids : List String)
      (tags : List (String × String)),
      otruthy gid = false → tags ≠ [] → 2 ≤ (vgwTagMatches env tags).length →
        vgwRun env stPresent gid ty az vpc rtids tags
            = .error (Failure.failJson vgwTooManyMsg, vgwAbortTrace env) ∧
          vgwRun env stAbsent gid ty az vpc rtids tags
            = .error (Failure.failJson vgwTooManyMsg, vgwAbortTrace env) ∧
          (vgwAbortTrace env).filter isMutating = []) ∧
    (∀ (env : VconnEnv) (vid ty cgwId vgwId vpc : Option String)
      (sro : Option Bool) (routes : List String)
      (tags : List (String × String)),
      otruthy vid = false → tags ≠ [] → 2 ≤ (vconnTagMatches env tags).length →
        vconnRun env stPresent vid ty cgwId vgwId vpc sro routes tags
            = .error (Failure.failJson vconnTooManyMsg, vconnAbortTrace env) ∧
          vconnRun env stAbsent vid ty cgwId vgwId vpc sro routes tags
            = .error (Failure.failJson vconnTooManyMsg, vconnAbortTrace env) ∧
          (vconnAbortTrace env).filter isMutating = []) := by
  refine ⟨?_, ?_, ?_⟩
  · intro env ip cid asn ty tags hid htags hn
    have hlook := cgwLookup_toomany env (cgwInitState ip cid asn ty tags)
      hid htags hn
    refine ⟨?_, ?_, ?_⟩
    · unfold cgwRun
      rw [hlook]
      rfl
    · unfold cgwRun
      rw [hlook]
      rfl
    · simp [cgwAbortTrace, List.filter_cons, isMutating,
        filter_isMutating_map_tags]
  · intro env gid ty az vpc rtids tags hid htags hn
    have hlook := vgwLookup_toomany env (vgwInitState gid ty az vpc rtids tags)
      hid htags hn
    refine ⟨?_, ?_, ?_⟩
    · unfold vgwRun
      rw [hlook]
      rfl
    · unfold vgwRun
      rw [hlook]
      rfl
    · simp [vgwAbortTrace, List.filter_cons, isMutating,
        filter_isMutating_map_tags]
  · intro env vid ty cgwId vgwId vpc sro routes tags hid htags hn
    have hlook := vconnLookup_toomany env
      (vconnInitState vid ty cgwId vgwId vpc sro routes tags) hid htags hn
    refine ⟨?_, ?_, ?_⟩
    · unfold vconnRun
      rw [hlook]
      rfl
    · unfold vconnRun
      rw [hlook]
      rfl
    · simp [vconnAbortTrace, List.filter_cons, isMutating,
        filter_isMutating_map_tags]

def cgwB : Cgw := { cgwA with id := "cgw-2" }

def envCgw2 : CgwEnv :=
  { envCgw0 with allCgws := [cgwA, cgwB], tagsFor := fun _ => tagsName }

def vgwB : Vgw := { vgwA with id := "vgw-2" }

def envVgw2 : VgwEnv :=
  { envVgw0 with allVgws := [vgwA, vgwB], tagsFor := fun _ => tagsName }

def vconnB : Vconn := { vconnA with id := "vpn-2" }

def envVconn2 : VconnEnv :=
  { envVconn0 with allVconns := [vconnA, vconnB], tagsFor := fun _ => tagsName }

/-- Witness for C3: two remote resources match the tag criteria, the id is
unset, and both runs abort with the "found more than one" failure. -/
theorem claim_C3_witness :
    (otruthy none = false ∧ tagsName ≠ [] ∧
      2 ≤ (cgwTagMatches envCgw2 tagsName).length ∧
      cgwRun envCgw2 stPresent none none none none tagsName
          = .error (Failure.failJson cgwTooManyMsg, cgwAbortTrace envCgw2) ∧
      cgwRun envCgw2 stAbsent none none none none tagsName
          = .error (Failure.failJson cgwTooManyMsg, cgwAbortTrace envCgw2) ∧
      (cgwAbortTrace envCgw2).filter isMutating = []) ∧
    (2 ≤ (vgwTagMatches envVgw2 tagsName).length ∧
      vgwRun envVgw2 stPresent none none none none [] tagsName
          = .error (Failure.failJson vgwTooManyMsg, vgwAbortTrace envVgw2) ∧
      vgwRun envVgw2 stAbsent none none none none [] tagsName
          = .error (Failure.failJson vgwTooManyMsg, vgwAbortTrace envVgw2) ∧
      (vgwAbortTrace envVgw2).filter isMutating = []) ∧
    (2 ≤ (vconnTagMatches envVconn2 tagsName).length ∧
      vconnRun envVconn2 stPresent none none none none none none [] tagsName
          = .error (Failure.failJson vconnTooManyMsg, vconnAbortTrace envVconn2) ∧
      vconnRun envVconn2 stAbsent none none none none none none [] tagsName
          = .error (Failure.failJson vconnTooManyMsg, vconnAbortTrace envVconn2) ∧
      (vconnAbortTrace envVconn2).filter isMutating = []) :=
  ⟨⟨rfl, by decide, by decide,
    claim_C3_more_than_one_aborts.1 envCgw2 none none none none tagsName
      rfl (by decide) (by decide)⟩,
   ⟨by decide,
    claim_C3_more_than_one_aborts.2.1 envVgw2 none none none none [] tagsName
      rfl (by decide) (by decide)⟩,
   ⟨by decide,
    claim_C3_more_than_one_aborts.2.2 envVconn2 none none none none none none
      [] tagsName rfl (by decide) (by decide)⟩⟩

/-- C4: tag reconciliation is additive-only, for every manager.  Each
`_set_tags` never issues a tag-removal call; with pairwise distinct
desired keys it adds exactly the desired key/value pairs missing (by
exact key+value equality) from the remote tag dict, in one batch call;
and when the remote tag set equals or is a superset of the desired set,
no tag-creation call is issued at all. -/
theorem claim_C4_set_tags_additive_only :
    (∀ (env : CgwEnv) (s : CgwState),
      (cgwSetTags env s).2.filter isTagRemoval = [] ∧
      ((s.tags.map Prod.fst).Nodup →
        (cgwSetTags env s).2.filter isCreateTags
          = (if (s.tags.filter
                  (fun p => !(toDict (env.tagsFor s.id)).contains p)).isEmpty
             then []
             else [Call.createTags s.id (s.tags.filter
                (fun p => !(toDict (env.tagsFor s.id)).contains p))])) ∧
      (pairsSubset s.tags (toDict (env.tagsFor s.id)) = true →
        (cgwSetTags env s).2.filter isCreateTags = [])) ∧
    (∀ (env : VgwEnv) (s : VgwState),
      (vgwSetTags env s).2.filter isTagRemoval = [] ∧
      ((s.tags.map Prod.fst).Nodup →
        (vgwSetTags env s).2.filter isCreateTags
          = (if (s.tags.filter
                  (fun p => !(toDict (env.tagsFor s.id)).contains p)).isEmpty
             then []
             else [Call.createTags s.id (s.tags.filter
                (fun p => !(toDict (env.tagsFor s.id)).contains p))])) ∧
      (pairsSubset s.tags (toDict (env.tagsFor s.id)) = true →
        (vgwSetTags env s).2.filter isCreateTags = [])) ∧
    (∀ (env : VconnEnv) (s : VconnState),
      (vconnSetTags env s).2.filter isTagRemoval = [] ∧
      ((s.tags.map Prod.fst).Nodup →
        (vconnSetTags env s).2.filter isCreateTags
          = (if (s.tags.filter
                  (fun p => !(toDict (env.tagsFor s.id)).contains p)).isEmpty
             then []
             else [Call.createTags s.id (s.tags.filter
                (fun p => !(toDict (env.tagsFor s.id)).contains p))])) ∧
      (pairsSubset s.tags (toDict (env.tagsFor s.id)) = true →
        (vconnSetTags env s).2.filter isCreateTags = [])) := by
  refine ⟨?_, ?_, ?_⟩ <;> intro env s <;>
    refine ⟨setTagsCalls_no_removal env.tagsFor s.tags s.id, ?_, ?_⟩ <;>
    try intro h
  case refine_1.refine_1 =>
    rw [show (cgwSetTags env s).2 = setTagsCalls env.tagsFor s.tags s.id from rfl]
    rw [setTagsCalls_createTags]
    rw [computeDictAdd_eq_filter s.tags (toDict (env.tagsFor s.id)) h]
  case refine_1.refine_2 =>
    rw [show (cgwSetTags env s).2 = setTagsCalls env.tagsFor s.tags s.id from rfl]
    rw [setTagsCalls_createTags]
    rw [computeDictAdd_nil_of_subset s.tags (toDict (env.tagsFor s.id)) h]
    rfl
  case refine_2.refine_1 =>
    rw [show (vgwSetTags env s).2 = setTagsCalls env.tagsFor s.tags s.id from rfl]
    rw [setTagsCalls_createTags]
    rw [computeDictAdd_eq_filter s.tags (toDict (env.tagsFor s.id)) h]
  case refine_2.refine_2 =>
    rw [show (vgwSetTags env s).2 = setTagsCalls env.tagsFor s.tags s.id from rfl]
    rw [setTagsCalls_createTags]
    rw [computeDictAdd_nil_of_subset s.tags (toDict (env.tagsFor s.id)) h]
    rfl
  case refine_3.refine_1 =>
    rw [show (vconnSetTags env s).2 = setTagsCalls env.tagsFor s.tags s.id from rfl]
    rw [setTagsCalls_createTags]
    rw [computeDictAdd_eq_filter s.tags (toDict (env.tagsFor s.id)) h]
  case refine_3.refine_2 =>
    rw [show (vconnSetTags env s).2 = setTagsCalls env.tagsFor s.tags s.id from rfl]
    rw [setTagsCalls_createTags]
    rw [computeDictAdd_nil_of_subset s.tags (toDict (env.tagsFor s.id)) h]
    rfl

def tagsAB : List (String × String) := [("A", "1"), ("B", "2")]

def envCgwRemoteA : CgwEnv := { envCgw0 with tagsFor := fun _ => [("A", "1")] }

def sCgwAB : CgwState := { sCgw1 with tags := tagsAB }

def envVgwRemoteA : VgwEnv := { envVgw0 with tagsFor := fun _ => [("A", "1")] }

def sVgwAB : VgwState := { sVgw1 with tags := tagsAB }

def envVconnRemoteA : VconnEnv :=
  { envVconn0 with tagsFor := fun _ => [("A", "1")] }

def sVconnAB : VconnState := { sVconn1 with tags := tagsAB }

/-- Witness for C4 at the example given in the spec: remote tags A:1 and desired
tags {A:1, B:2} add exactly {B:2} without any removal, for all three
managers; and with remote tags equal to the desired set no tag-creation
call is issued. -/
theorem claim_C4_witness :
    ((sCgwAB.tags.map Prod.fst).Nodup ∧
      (cgwSetTags envCgwRemoteA sCgwAB).2.filter isCreateTags
          = [Call.createTags sCgwAB.id [("B", "2")]] ∧
      (cgwSetTags envCgwRemoteA sCgwAB).2.filter isTagRemoval = [] ∧
      pairsSubset sCgw1.tags (toDict (envCgwFind.tagsFor sCgw1.id)) = true ∧
      (cgwSetTags envCgwFind sCgw1).2.filter isCreateTags = []) ∧
    ((sVgwAB.tags.map Prod.fst).Nodup ∧
      (vgwSetTags envVgwRemoteA sVgwAB).2.filter isCreateTags
          = [Call.createTags sVgwAB.id [("B", "2")]] ∧
      (vgwSetTags envVgwRemoteA sVgwAB).2.filter isTagRemoval = []) ∧
    ((sVconnAB.tags.map Prod.fst).Nodup ∧
      (vconnSetTags envVconnRemoteA sVconnAB).2.filter isCreateTags
          = [Call.createTags sVconnAB.id [("B", "2")]] ∧
      (vconnSetTags envVconnRemoteA sVconnAB).2.filter isTagRemoval = []) := by
  refine ⟨⟨by decide, ?_, ?_, by decide, ?_⟩, ⟨by decide, ?_, ?_⟩,
    ⟨by decide, ?_, ?_⟩⟩
  · rw [(claim_C4_set_tags_additive_only.1 envCgwRemoteA sCgwAB).2.1 (by decide)]
    decide
  · exact (claim_C4_set_tags_additive_only.1 envCgwRemoteA sCgwAB).1
  · exact (claim_C4_set_tags_additive_only.1 envCgwFind sCgw1).2.2 (by decide)
  · rw [(claim_C4_set_tags_additive_only.2.1 envVgwRemoteA sVgwAB).2.1 (by decide)]
    decide
  · exact (claim_C4_set_tags_additive_only.2.1 envVgwRemoteA sVgwAB).1
  · rw [(claim_C4_set_tags_additive_only.2.2 envVconnRemoteA sVconnAB).2.1
      (by decide)]
    decide
  · exact (claim_C4_set_tags_additive_only.2.2 envVconnRemoteA sVconnAB).1

/-- C5 counterexample: at remote tags {A:1} and desired tags {A:1, B:2},
the computed difference is non-empty and the single batch tag-creation
call carrying exactly B:2 is issued, yet the changed flag of the manager —
false before — is still false after `_set_tags`: no line of any of the
three `_set_tags` bodies assigns `self.changed`, so the claimed "the
changed flag of the manager is set to true" is false on this input. -/
theorem claim_C5_counterexample :
    (cgwSetTags envCgwRemoteA sCgwAB).2.filter isCreateTags
        = [Call.createTags sCgwAB.id [("B", "2")]] ∧
      sCgwAB.changed = false ∧
      (cgwSetTags envCgwRemoteA sCgwAB).1.changed = false := by
  decide

/-- C5 as amended: when the computed difference is non-empty (and the
desired keys are pairwise distinct), `_set_tags` issues a single batch
tag-creation call with exactly the missing pairs — but it leaves the
manager state, in particular the changed flag, entirely unchanged. -/
theorem claim_C5_single_batch_call_state_unchanged :
    (∀ (env : CgwEnv) (s : CgwState),
      ((s.tags.map Prod.fst).Nodup →
        (s.tags.filter
            (fun p => !(toDict (env.tagsFor s.id)).contains p)).isEmpty = false →
        (cgwSetTags env s).2.filter isCreateTags
          = [Call.createTags s.id (s.tags.filter
              (fun p => !(toDict (env.tagsFor s.id)).contains p))]) ∧
      (cgwSetTags env s).1 = s) ∧
    (∀ (env : VgwEnv) (s : VgwState),
      ((s.tags.map Prod.fst).Nodup →
        (s.tags.filter
            (fun p => !(toDict (env.tagsFor s.id)).contains p)).isEmpty = false →
        (vgwSetTags env s).2.filter isCreateTags
          = [Call.createTags s.id (s.tags.filter
              (fun p => !(toDict (env.tagsFor s.id)).contains p))]) ∧
      (vgwSetTags env s).1 = s) ∧
    (∀ (env : VconnEnv) (s : VconnState),
      ((s.tags.map Prod.fst).Nodup →
        (s.tags.filter
            (fun p => !(toDict (env.tagsFor s.id)).contains p)).isEmpty = false →
        (vconnSetTags env s).2.filter isCreateTags
          = [Call.createTags s.id (s.tags.filter
              (fun p => !(toDict (env.tagsFor s.id)).contains p))]) ∧
      (vconnSetTags env s).1 = s) := by
  refine ⟨?_, ?_, ?_⟩ <;> intro env s <;> refine ⟨?_, rfl⟩ <;> intro hnd hne
  case refine_1 =>
    rw [show (cgwSetTags env s).2 = setTagsCalls env.tagsFor s.tags s.id from rfl]
    rw [setTagsCalls_createTags, computeDictAdd_eq_filter s.tags _ hnd,
      if_neg (by rw [hne]; exact Bool.false_ne_true)]
  case refine_2 =>
    rw [show (vgwSetTags env s).2 = setTagsCalls env.tagsFor s.tags s.id from rfl]
    rw [setTagsCalls_createTags, computeDictAdd_eq_filter s.tags _ hnd,
      if_neg (by rw [hne]; exact Bool.false_ne_true)]
  case refine_3 =>
    rw [show (vconnSetTags env s).2 = setTagsCalls env.tagsFor s.tags s.id from rfl]
    rw [setTagsCalls_createTags, computeDictAdd_eq_filter s.tags _ hnd,
      if_neg (by rw [hne]; exact Bool.false_ne_true)]

/-- Witness for the amended C5 at remote tags {A:1}, desired {A:1, B:2}. -/
theorem claim_C5_witness :
    ((sCgwAB.tags.map Prod.fst).Nodup ∧
      (sCgwAB.tags.filter
          (fun p => !(toDict (envCgwRemoteA.tagsFor sCgwAB.id)).contains p)).isEmpty
        = false ∧
      (cgwSetTags envCgwRemoteA sCgwAB).2.filter isCreateTags
          = [Call.createTags sCgwAB.id (sCgwAB.tags.filter
              (fun p => !(toDict (envCgwRemoteA.tagsFor sCgwAB.id)).contains p))] ∧
      (cgwSetTags envCgwRemoteA sCgwAB).1 = sCgwAB) ∧
    ((vgwSetTags envVgwRemoteA sVgwAB).2.filter isCreateTags
          = [Call.createTags sVgwAB.id (sVgwAB.tags.filter
              (fun p => !(toDict (envVgwRemoteA.tagsFor sVgwAB.id)).contains p))] ∧
      (vgwSetTags envVgwRemoteA sVgwAB).1 = sVgwAB) ∧
    ((vconnSetTags envVconnRemoteA sVconnAB).2.filter isCreateTags
          = [Call.createTags sVconnAB.id (sVconnAB.tags.filter
              (fun p => !(toDict (envVconnRemoteA.tagsFor sVconnAB.id)).contains p))] ∧
      (vconnSetTags envVconnRemoteA sVconnAB).1 = sVconnAB) :=
  ⟨⟨by decide, by decide,
    (claim_C5_single_batch_call_state_unchanged.1 envCgwRemoteA sCgwAB).1
      (by decide) (by decide),
    (claim_C5_single_batch_call_state_unchanged.1 envCgwRemoteA sCgwAB).2⟩,
   ⟨(claim_C5_single_batch_call_state_unchanged.2.1 envVgwRemoteA sVgwAB).1
      (by decide) (by decide),
    (claim_C5_single_batch_call_state_unchanged.2.1 envVgwRemoteA sVgwAB).2⟩,
   ⟨(claim_C5_single_batch_call_state_unchanged.2.2 envVconnRemoteA sVconnAB).1
      (by decide) (by decide),
    (claim_C5_single_batch_call_state_unchanged.2.2 envVconnRemoteA sVconnAB).2⟩⟩

def sVgwGone : VgwState :=
  vgwInitState (some ("vgw-1")) none none (some ("vpc-1")) [] tagsName

/-- C6 counterexample: for the VPN gateway with both a vpc id and a
resource id supplied but the lookup having found nothing, `ensure_gone`
is not a no-op — it issues a (mutating) detach call before ever checking
whether a gateway was found, and with a truthy detach result even sets
`changed = true`.  This refutes the claimed "no mutating remote call is
issued and changed = false, including the VPN gateway case where a vpc id
and a resource id were both supplied". -/
theorem claim_C6_counterexample :
    sVgwGone.vpn_gw = none ∧ sVgwGone.changed = false ∧
      sVgwGone.status = "gone" ∧
      (vgwEnsureGone envVgw0 sVgwGone).2.filter isMutating
          = [Call.detachVgw sVgwGone.id sVgwGone.vpc] ∧
      (vgwEnsureGone envVgw0 sVgwGone).1.changed = true := by
  decide

/-- C6 as amended: `ensure_gone` on a non-existent resource (lookup found
nothing) is a strict no-op — no remote call at all, state untouched, so
`changed` stays false and `status` stays "gone" — for the customer
gateway and the VPN connection unconditionally, and for the VPN gateway
only when the vpc id and the resource id are not both truthy.  When both
are truthy, the VPN gateway manager issues exactly one detach call even
though no gateway was found, sets `changed = true` whenever the detach
result is truthy, and still issues no delete call (status is
untouched). -/
theorem claim_C6_ensure_gone_noop_when_absent :
    (∀ (env : CgwEnv) (s : CgwState), s.cgw = none →
      cgwEnsureGone env s = (s, [])) ∧
    (∀ (env : VconnEnv) (s : VconnState), s.vpn_conn = none →
      vconnEnsureGone env s = (s, [])) ∧
    (∀ (env : VgwEnv) (s : VgwState), s.vpn_gw = none →
      (otruthy s.vpc && otruthy s.id) = false →
      vgwEnsureGone env s = (s, [])) ∧
    (∀ (env : VgwEnv) (s : VgwState), s.vpn_gw = none →
      (otruthy s.vpc && otruthy s.id) = true →
      (vgwEnsureGone env s).2 = [Call.detachVgw s.id s.vpc] ∧
      (env.detachResult = true → (vgwEnsureGone env s).1.changed = true) ∧
      (vgwEnsureGone env s).1.status = s.status) := by
  refine ⟨?_, ?_, ?_, ?_⟩
  · intro env s h
    simp [cgwEnsureGone, h]
  · intro env s h
    simp [vconnEnsureGone, h]
  · intro env s h hvc
    unfold vgwEnsureGone vgwDetachVgw vgwDeleteVgw
    rw [if_neg (by rw [hvc]; exact Bool.false_ne_true)]
    simp [h]
  · intro env s h hvc
    unfold vgwEnsureGone vgwDetachVgw vgwDeleteVgw
    rw [if_pos hvc]
    split
    · simp [h]
    · rename_i hdr
      refine ⟨by simp [h], fun hd => absurd hd hdr, by simp [h]⟩

/-- Witness for the amended C6: concrete no-op runs for all three kinds,
and the concrete detach-despite-absent VPN gateway case. -/
theorem claim_C6_witness :
    (sCgw0.cgw = none ∧ cgwEnsureGone envCgw0 sCgw0 = (sCgw0, [])) ∧
    (sVconn0.vpn_conn = none ∧
      vconnEnsureGone envVconn0 sVconn0 = (sVconn0, [])) ∧
    (sVgw0.vpn_gw = none ∧ (otruthy sVgw0.vpc && otruthy sVgw0.id) = false ∧
      vgwEnsureGone envVgw0 sVgw0 = (sVgw0, [])) ∧
    (sVgwGone.vpn_gw = none ∧
      (otruthy sVgwGone.vpc && otruthy sVgwGone.id) = true ∧
      (vgwEnsureGone envVgw0 sVgwGone).2
          = [Call.detachVgw sVgwGone.id sVgwGone.vpc] ∧
      (envVgw0.detachResult = true →
        (vgwEnsureGone envVgw0 sVgwGone).1.changed = true) ∧
      (vgwEnsureGone envVgw0 sVgwGone).1.status = sVgwGone.status) :=
  ⟨⟨rfl, claim_C6_ensure_gone_noop_when_absent.1 envCgw0 sCgw0 rfl⟩,
   ⟨rfl, claim_C6_ensure_gone_noop_when_absent.2.1 envVconn0 sVconn0 rfl⟩,
   ⟨rfl, by decide,
    claim_C6_ensure_gone_noop_when_absent.2.2.1 envVgw0 sVgw0 rfl (by decide)⟩,
   ⟨rfl, by decide,
    claim_C6_ensure_gone_noop_when_absent.2.2.2 envVgw0 sVgwGone rfl (by decide)⟩⟩

def sCgwNoIdNoIp : CgwState := cgwInitState none none none none tagsName

/-- C7: the customer gateway `get_info` with both `id` and `ip_address`
falsy raises an uncaught NameError — neither branch of the `try` body
runs, so the local `check_aws` is unbound when `if not check_aws:` is
evaluated (and that statement sits outside the `try`).  The documented
"never raises" is the evident intent of the try/except, so this is a
slip in the code, reachable e.g. with `state=absent` and a tags-only
lookup that found nothing. -/
theorem claim_C7_get_info_raises_nameerror :
    cgwGetInfo envCgw0 sCgwNoIdNoIp = .error Failure.nameError := rfl

/-- Embedding of `get_info` of the VPN gateway always issues exactly the one fetch. -/
theorem vgwGetInfo_trace (env : VgwEnv) (s : VgwState) :
    (vgwGetInfo env s).2 = [Call.fetchVgwById s.id] := by
  unfold vgwGetInfo
  split <;> rfl

/-- Reduction of the VPN gateway main run, state "present", when the
lookup succeeded and the route-propagation condition holds. -/
theorem vgwRun_present_enable (env : VgwEnv) (gid ty az vpc : Option String)
    (rtids : List String) (tags : List (String × String)) (s1 : VgwState)
    (t1 : List Call)
    (hlook : vgwGetVpnGateway env (vgwInitState gid ty az vpc rtids tags)
      = .ok (s1, t1))
    (hcond : (!s1.route_table_ids.isEmpty && s1.vpn_gw.isSome) = true) :
    vgwRun env stPresent gid ty az vpc rtids tags
      = .ok (((vgwEnableRoute env s1).1.changed,
          (vgwGetInfo env (vgwEnableRoute env s1).1).1),
          t1 ++ (vgwEnableRoute env s1).2
            ++ [Call.fetchVgwById (vgwEnableRoute env s1).1.id]) := by
  unfold vgwRun
  rw [hlook]
  show vgwMainBody env stPresent s1 t1 = _
  unfold vgwMainBody
  dsimp only
  rw [if_pos (show (stPresent == "present") = true from rfl)]
  rw [if_pos hcond]
  rw [if_neg (show ¬(stPresent == "absent") = true by decide)]
  simp [vgwGetInfo_trace]

/-- Reduction of the VPN gateway main run, state "absent", when the
lookup succeeded and the route-propagation condition holds. -/
theorem vgwRun_absent_disable (env : VgwEnv) (gid ty az vpc : Option String)
    (rtids : List String) (tags : List (String × String)) (s1 : VgwState)
    (t1 : List Call)
    (hlook : vgwGetVpnGateway env (vgwInitState gid ty az vpc rtids tags)
      = .ok (s1, t1))
    (hcond : (!s1.route_table_ids.isEmpty && s1.vpn_gw.isSome) = true) :
    vgwRun env stAbsent gid ty az vpc rtids tags
      = .ok (((vgwDisableRoute env s1).1.changed,
          (vgwGetInfo env (vgwDisableRoute env s1).1).1),
          t1 ++ (vgwDisableRoute env s1).2
            ++ [Call.fetchVgwById (vgwDisableRoute env s1).1.id]) := by
  unfold vgwRun
  rw [hlook]
  show vgwMainBody env stAbsent s1 t1 = _
  unfold vgwMainBody
  dsimp only
  rw [if_neg (show ¬(stAbsent == "present") = true by decide)]
  rw [if_pos (show (stAbsent == "absent") = true from rfl)]
  rw [if_pos hcond]
  simp [vgwGetInfo_trace]

/-- C8: for the VPN gateway module with state "present", a non-empty
route_table_ids list, and a gateway found by the lookup, `ensure_ok` is
skipped: the run issues exactly one enable-route-propagation call per
listed route table id (these are the only mutating calls — no create, no
tag creation, no attach), and the reported changed flag is
`route_table_ids.any enableResult`, hence true whenever at least one of
those calls returns a truthy result. -/
theorem claim_C8_present_route_propagation :
    ∀ (env : VgwEnv) (gid ty az vpc : Option String) (rtids : List String)
      (tags : List (String × String)) (s1 : VgwState) (t1 : List Call)
      (g : Vgw),
      vgwGetVpnGateway env (vgwInitState gid ty az vpc rtids tags)
          = .ok (s1, t1) →
      s1.vpn_gw = some g → rtids ≠ [] →
      ∃ info : VgwInfo,
        vgwRun env stPresent gid ty az vpc rtids tags
            = .ok (((rtids.any fun r => env.enableResult r), info),
                t1 ++ rtids.map (fun r => Call.enableProp r s1.id)
                  ++ [Call.fetchVgwById s1.id]) ∧
        (t1 ++ rtids.map (fun r => Call.enableProp r s1.id)
            ++ [Call.fetchVgwById s1.id]).filter isMutating
          = rtids.map (fun r => Call.enableProp r s1.id) ∧
        ((∃ r ∈ rtids, env.enableResult r = true) →
          (rtids.any fun r => env.enableResult r) = true) := by
  intro env gid ty az vpc rtids tags s1 t1 g hlook hfound hrt
  obtain ⟨htr, htags, hchg, hvpc, hrtids, hty, haz, has, hst, hid⟩ :=
    vgwLookup_inv env _ s1 t1 hlook
  have hchg0 : s1.changed = false := hchg
  have hrt2 : s1.route_table_ids = rtids := hrtids
  have hcond : (!s1.route_table_ids.isEmpty && s1.vpn_gw.isSome) = true := by
    rw [hrt2, hfound]
    simp [hrt]
  refine ⟨(vgwGetInfo env (vgwEnableRoute env s1).1).1, ?_, ?_, ?_⟩
  · rw [vgwRun_present_enable env gid ty az vpc rtids tags s1 t1 hlook hcond]
    unfold vgwEnableRoute
    rw [hrt2]
    by_cases hany : (rtids.any fun r => env.enableResult r) = true
    · simp [hany, hchg0]
    · rw [Bool.not_eq_true] at hany
      simp [hany, hchg0]
  · simp [List.filter_append, htr, filter_isMutating_map_enable, isMutating]
  · intro hex
    rw [List.any_eq_true]
    obtain ⟨r, hr, hres⟩ := hex
    exact ⟨r, hr, hres⟩

def rtids2 : List String := ["rtb-1", "rtb-2"]

def envVgwRt : VgwEnv :=
  { envVgw0 with
    allVgws := [vgwA],
    enableResult := (fun r => r == "rtb-1"),
    disableResult := (fun r => r == "rtb-1") }

def sVgwRt0 : VgwState :=
  vgwInitState (some vgwA.id) none none none rtids2 tagsName

def sVgwRt1 : VgwState := { sVgwRt0 with status := "ok", vpn_gw := some vgwA }

/-- Witness for C8: a gateway found by id, two route table ids, and an
enable call that succeeds for the first one. -/
theorem claim_C8_witness :
    vgwGetVpnGateway envVgwRt sVgwRt0 = .ok (sVgwRt1, [Call.getAllVgws]) ∧
      sVgwRt1.vpn_gw = some vgwA ∧ rtids2 ≠ [] ∧
      (∃ info : VgwInfo,
        vgwRun envVgwRt stPresent (some vgwA.id) none none none rtids2 tagsName
            = .ok (((rtids2.any fun r => envVgwRt.enableResult r), info),
                [Call.getAllVgws]
                  ++ rtids2.map (fun r => Call.enableProp r sVgwRt1.id)
                  ++ [Call.fetchVgwById sVgwRt1.id]) ∧
        ([Call.getAllVgws]
            ++ rtids2.map (fun r => Call.enableProp r sVgwRt1.id)
            ++ [Call.fetchVgwById sVgwRt1.id]).filter isMutating
          = rtids2.map (fun r => Call.enableProp r sVgwRt1.id) ∧
        ((∃ r ∈ rtids2, envVgwRt.enableResult r = true) →
          (rtids2.any fun r => envVgwRt.enableResult r) = true)) :=
  ⟨rfl, rfl, by decide,
   claim_C8_present_route_propagation envVgwRt (some vgwA.id) none none none
     rtids2 tagsName sVgwRt1 [Call.getAllVgws] vgwA rfl rfl (by decide)⟩

/-- C10: in the route-propagation paths of the VPN gateway module (non-empty
route_table_ids and a gateway found), the only mutating remote calls of
the whole run are the route-propagation toggles themselves: with state
"present" no tag-creation and no attach call occurs, and with state
"absent" no detach and no delete call occurs. -/
theorem claim_C10_route_propagation_frame :
    ∀ (env : VgwEnv) (gid ty az vpc : Option String) (rtids : List String)
      (tags : List (String × String)) (s1 : VgwState) (t1 : List Call)
      (g : Vgw),
      vgwGetVpnGateway env (vgwInitState gid ty az vpc rtids tags)
          = .ok (s1, t1) →
      s1.vpn_gw = some g → rtids ≠ [] →
      (∃ chg info t, vgwRun env stPresent gid ty az vpc rtids tags
          = .ok ((chg, info), t) ∧
        t.filter isMutating = rtids.map (fun r => Call.enableProp r s1.id)) ∧
      (∃ chg info t, vgwRun env stAbsent gid ty az vpc rtids tags
          = .ok ((chg, info), t) ∧
        t.filter isMutating = rtids.map (fun r => Call.disableProp r s1.id)) := by
  intro env gid ty az vpc rtids tags s1 t1 g hlook hfound hrt
  obtain ⟨htr, htags, hchg, hvpc, hrtids, hty, haz, has, hst, hid⟩ :=
    vgwLookup_inv env _ s1 t1 hlook
  have hrt2 : s1.route_table_ids = rtids := hrtids
  have hcond : (!s1.route_table_ids.isEmpty && s1.vpn_gw.isSome) = true := by
    rw [hrt2, hfound]
    simp [hrt]
  constructor
  · refine ⟨(vgwEnableRoute env s1).1.changed,
      (vgwGetInfo env (vgwEnableRoute env s1).1).1,
      t1 ++ (vgwEnableRoute env s1).2
        ++ [Call.fetchVgwById (vgwEnableRoute env s1).1.id],
      vgwRun_present_enable env gid ty az vpc rtids tags s1 t1 hlook hcond, ?_⟩
    unfold vgwEnableRoute
    rw [hrt2]
    by_cases hany : (rtids.any fun r => env.enableResult r) = true
    · simp [hany, List.filter_append, htr, filter_isMutating_map_enable,
        isMutating]
    · rw [Bool.not_eq_true] at hany
      simp [hany, List.filter_append, htr, filter_isMutating_map_enable,
        isMutating]
  · refine ⟨(vgwDisableRoute env s1).1.changed,
      (vgwGetInfo env (vgwDisableRoute env s1).1).1,
      t1 ++ (vgwDisableRoute env s1).2
        ++ [Call.fetchVgwById (vgwDisableRoute env s1).1.id],
      vgwRun_absent_disable env gid ty az vpc rtids tags s1 t1 hlook hcond, ?_⟩
    unfold vgwDisableRoute
    rw [hrt2]
    by_cases hany : (rtids.any fun r => env.disableResult r) = true
    · simp [hany, List.filter_append, htr, filter_isMutating_map_disable,
        isMutating]
    · rw [Bool.not_eq_true] at hany
      simp [hany, List.filter_append, htr, filter_isMutating_map_disable,
        isMutating]

/-- Witness for C10 at the concrete C8 fixture. -/
theorem claim_C10_witness :
    vgwGetVpnGateway envVgwRt sVgwRt0 = .ok (sVgwRt1, [Call.getAllVgws]) ∧
      sVgwRt1.vpn_gw = some vgwA ∧ rtids2 ≠ [] ∧
      ((∃ chg info t, vgwRun envVgwRt stPresent (some vgwA.id) none none none
            rtids2 tagsName = .ok ((chg, info), t) ∧
          t.filter isMutating
            = rtids2.map (fun r => Call.enableProp r sVgwRt1.id)) ∧
       (∃ chg info t, vgwRun envVgwRt stAbsent (some vgwA.id) none none none
            rtids2 tagsName = .ok ((chg, info), t) ∧
          t.filter isMutating
            = rtids2.map (fun r => Call.disableProp r sVgwRt1.id))) :=
  ⟨rfl, rfl, by decide,
   claim_C10_route_propagation_frame envVgwRt (some vgwA.id) none none none
     rtids2 tagsName sVgwRt1 [Call.getAllVgws] vgwA rfl rfl (by decide)⟩

/-- Every customer gateway operation keeps `status` in the enumeration and
never resets `changed`. -/
theorem cgwStep_preserves (env : CgwEnv) (op : Op) (s s1 : CgwState)
    (h : cgwStep env op s = .ok s1) (hs : statusOk s.status = true) :
    statusOk s1.status = true ∧ (s.changed = true → s1.changed = true) := by
  cases op with
  | lookup =>
    unfold cgwStep at h
    cases hl : cgwGetCustomerGateway env s with
    | error e => rw [hl] at h; simp at h
    | ok r =>
      obtain ⟨s2, t2⟩ := r
      rw [hl] at h
      simp only [Except.ok.injEq] at h
      subst h
      obtain ⟨-, -, hchg, -, -, -, hstat, -⟩ := cgwLookup_inv env s s2 t2 hl
      constructor
      · rcases hstat with h1 | h1
        · rw [h1]; exact hs
        · rw [h1]; decide
      · intro hc; rw [hchg]; exact hc
  | ensureOk =>
    unfold cgwStep at h
    simp only [Except.ok.injEq] at h
    subst h
    unfold cgwEnsureOk cgwCreateCgw cgwSetTags
    cases hc : s.cgw with
    | some c => simp [hs]
    | none =>
      cases hcr : env.createResult with
      | some c => simp [statusOk]
      | none => simp [hs]
  | ensureGone =>
    unfold cgwStep at h
    simp only [Except.ok.injEq] at h
    subst h
    unfold cgwEnsureGone cgwDeleteCgw
    cases hc : s.cgw with
    | none => simp [hc, hs]
    | some c =>
      by_cases hd : env.deleteResult = true
      · simp [hc, hd, statusOk]
      · simp [hc, hd, hs]
  | getInfo =>
    unfold cgwStep at h
    cases hg : cgwGetInfo env s with
    | error f => rw [hg] at h; simp at h
    | ok r =>
      rw [hg] at h
      simp only [Except.ok.injEq] at h
      subst h
      exact ⟨hs, fun hc => hc⟩

/-- Embedding of `ensure_ok` of the VPN gateway leaves `status` unchanged or sets it to
"created". -/
theorem vgwEnsureOk_status (env : VgwEnv) (s : VgwState) :
    (vgwEnsureOk env s).1.status = s.status
      ∨ (vgwEnsureOk env s).1.status = "created" := by
  unfold vgwEnsureOk vgwCreateVgw vgwSetTags vgwAttachVgw
  cases hc : s.vpn_gw with
  | some g =>
    simp only [Option.isNone_some, Bool.false_eq_true, if_false]
    split
    · split <;> simp
    · simp
  | none =>
    simp only [Option.isNone_none, if_true]
    cases hcr : env.createResult with
    | some g =>
      simp only [hcr]
      split
      · split <;> simp
      · simp
    | none =>
      simp only [hcr]
      split
      · split <;> simp
      · simp

/-- Embedding of `ensure_ok` of the VPN gateway never resets a true `changed` flag. -/
theorem vgwEnsureOk_changed (env : VgwEnv) (s : VgwState)
    (h : s.changed = true) : (vgwEnsureOk env s).1.changed = true := by
  unfold vgwEnsureOk vgwCreateVgw vgwSetTags vgwAttachVgw
  cases hc : s.vpn_gw with
  | some g =>
    simp only [Option.isNone_some, Bool.false_eq_true, if_false]
    split
    · split <;> simp [h]
    · simp [h]
  | none =>
    simp only [Option.isNone_none, if_true]
    cases hcr : env.createResult with
    | some g =>
      simp only [hcr]
      split
      · split <;> simp
      · simp
    | none =>
      simp only [hcr]
      split
      · split <;> simp [h]
      · simp [h]

/-- Embedding of `ensure_gone` of the VPN gateway leaves `status` unchanged or sets it
to "deleted". -/
theorem vgwEnsureGone_status (env : VgwEnv) (s : VgwState) :
    (vgwEnsureGone env s).1.status = s.status
      ∨ (vgwEnsureGone env s).1.status = "deleted" := by
  unfold vgwEnsureGone vgwDetachVgw vgwDeleteVgw
  by_cases h1 : (otruthy s.vpc && otruthy s.id) = true <;>
    by_cases h2 : env.detachResult = true <;>
    by_cases h3 : s.vpn_gw.isSome = true <;>
    by_cases h4 : env.deleteResult = true <;>
    simp [h1, h2, h3, h4]

/-- Embedding of `ensure_gone` of the VPN gateway never resets a true `changed`
flag. -/
theorem vgwEnsureGone_changed (env : VgwEnv) (s : VgwState)
    (h : s.changed = true) : (vgwEnsureGone env s).1.changed = true := by
  unfold vgwEnsureGone vgwDetachVgw vgwDeleteVgw
  by_cases h1 : (otruthy s.vpc && otruthy s.id) = true <;>
    by_cases h2 : env.detachResult = true <;>
    by_cases h3 : s.vpn_gw.isSome = true <;>
    by_cases h4 : env.deleteResult = true <;>
    simp [h1, h2, h3, h4, h]

/-- Every VPN gateway operation keeps `status` in the enumeration and
never resets `changed`. -/
theorem vgwStep_preserves (env : VgwEnv) (op : Op) (s s1 : VgwState)
    (h : vgwStep env op s = .ok s1) (hs : statusOk s.status = true) :
    statusOk s1.status = true ∧ (s.changed = true → s1.changed = true) := by
  cases op with
  | lookup =>
    unfold vgwStep at h
    cases hl : vgwGetVpnGateway env s with
    | error e => rw [hl] at h; simp at h
    | ok r =>
      obtain ⟨s2, t2⟩ := r
      rw [hl] at h
      simp only [Except.ok.injEq] at h
      subst h
      obtain ⟨-, -, hchg, -, -, -, -, -, hstat, -⟩ := vgwLookup_inv env s s2 t2 hl
      constructor
      · rcases hstat with h1 | h1
        · rw [h1]; exact hs
        · rw [h1]; decide
      · intro hc; rw [hchg]; exact hc
  | ensureOk =>
    unfold vgwStep at h
    simp only [Except.ok.injEq] at h
    subst h
    constructor
    · rcases vgwEnsureOk_status env s with h1 | h1
      · rw [h1]; exact hs
      · rw [h1]; decide
    · exact vgwEnsureOk_changed env s
  | ensureGone =>
    unfold vgwStep at h
    simp only [Except.ok.injEq] at h
    subst h
    constructor
    · rcases vgwEnsureGone_status env s with h1 | h1
      · rw [h1]; exact hs
      · rw [h1]; decide
    · exact vgwEnsureGone_changed env s
  | getInfo =>
    unfold vgwStep at h
    simp only [Except.ok.injEq] at h
    subst h
    exact ⟨hs, fun hc => hc⟩

/-- Every VPN connection operation keeps `status` in the enumeration and
never resets `changed`. -/
theorem vconnStep_preserves (env : VconnEnv) (op : Op) (s s1 : VconnState)
    (h : vconnStep env op s = .ok s1) (hs : statusOk s.status = true) :
    statusOk s1.status = true ∧ (s.changed = true → s1.changed = true) := by
  cases op with
  | lookup =>
    unfold vconnStep at h
    cases hl : vconnGetVpnConnection env s with
    | error e => rw [hl] at h; simp at h
    | ok r =>
      obtain ⟨s2, t2⟩ := r
      rw [hl] at h
      simp only [Except.ok.injEq] at h
      subst h
      obtain ⟨-, -, hchg, -, -, -, -, hstat, -⟩ := vconnLookup_inv env s s2 t2 hl
      constructor
      · rcases hstat with h1 | h1
        · rw [h1]; exact hs
        · rw [h1]; decide
      · intro hc; rw [hchg]; exact hc
  | ensureOk =>
    unfold vconnStep at h
    simp only [Except.ok.injEq] at h
    subst h
    unfold vconnEnsureOk vconnCreateVconn vconnSetTags
    cases hc : s.vpn_conn with
    | some v => simp [hs]
    | none =>
      cases hcr : env.createResult with
      | some v => simp [statusOk]
      | none => simp [hs]
  | ensureGone =>
    unfold vconnStep at h
    simp only [Except.ok.injEq] at h
    subst h
    unfold vconnEnsureGone vconnDeleteVconn
    cases hc : s.vpn_conn with
    | none => simp [hc, hs]
    | some v =>
      by_cases hd : env.deleteResult = true
      · simp [hc, hd, statusOk]
      · simp [hc, hd, hs]
  | getInfo =>
    unfold vconnStep at h
    simp only [Except.ok.injEq] at h
    subst h
    exact ⟨hs, fun hc => hc⟩

/-- Sequences of customer gateway operations preserve the status
enumeration and the monotonicity of `changed`. -/
theorem cgwRunOps_preserves (env : CgwEnv) (ops : List Op) :
    ∀ (s s2 : CgwState), statusOk s.status = true →
      cgwRunOps env s ops = .ok s2 →
      statusOk s2.status = true ∧ (s.changed = true → s2.changed = true) := by
  induction ops with
  | nil =>
    intro s s2 hs h
    unfold cgwRunOps at h
    simp only [Except.ok.injEq] at h
    subst h
    exact ⟨hs, fun hc => hc⟩
  | cons op ops ih =>
    intro s s2 hs h
    unfold cgwRunOps at h
    cases hstep : cgwStep env op s with
    | error e => rw [hstep] at h; simp at h
    | ok s1 =>
      rw [hstep] at h
      obtain ⟨h1, h2⟩ := cgwStep_preserves env op s s1 hstep hs
      obtain ⟨h3, h4⟩ := ih s1 s2 h1 h
      exact ⟨h3, fun hc => h4 (h2 hc)⟩

/-- Sequences of VPN gateway operations preserve the status enumeration
and the monotonicity of `changed`. -/
theorem vgwRunOps_preserves (env : VgwEnv) (ops : List Op) :
    ∀ (s s2 : VgwState), statusOk s.status = true →
      vgwRunOps env s ops = .ok s2 →
      statusOk s2.status = true ∧ (s.changed = true → s2.changed = true) := by
  induction ops with
  | nil =>
    intro s s2 hs h
    unfold vgwRunOps at h
    simp only [Except.ok.injEq] at h
    subst h
    exact ⟨hs, fun hc => hc⟩
  | cons op ops ih =>
    intro s s2 hs h
    unfold vgwRunOps at h
    cases hstep : vgwStep env op s with
    | error e => rw [hstep] at h; simp at h
    | ok s1 =>
      rw [hstep] at h
      obtain ⟨h1, h2⟩ := vgwStep_preserves env op s s1 hstep hs
      obtain ⟨h3, h4⟩ := ih s1 s2 h1 h
      exact ⟨h3, fun hc => h4 (h2 hc)⟩

/-- Sequences of VPN connection operations preserve the status
enumeration and the monotonicity of `changed`. -/
theorem vconnRunOps_preserves (env : VconnEnv) (ops : List Op) :
    ∀ (s s2 : VconnState), statusOk s.status = true →
      vconnRunOps env s ops = .ok s2 →
      statusOk s2.status = true ∧ (s.changed = true → s2.changed = true) := by
  induction ops with
  | nil =>
    intro s s2 hs h
    unfold vconnRunOps at h
    simp only [Except.ok.injEq] at h
    subst h
    exact ⟨hs, fun hc => hc⟩
  | cons op ops ih =>
    intro s s2 hs h
    unfold vconnRunOps at h
    cases hstep : vconnStep env op s with
    | error e => rw [hstep] at h; simp at h
    | ok s1 =>
      rw [hstep] at h
      obtain ⟨h1, h2⟩ := vconnStep_preserves env op s s1 hstep hs
      obtain ⟨h3, h4⟩ := ih s1 s2 h1 h
      exact ⟨h3, fun hc => h4 (h2 hc)⟩

/-- C9: for every manager, the freshly constructed state has
`changed = false` and `status = "gone"`, and along every sequence of
operations (lookup, ensure_ok, ensure_gone, get_info) that does not
abort, the status stays in the enumeration {gone, ok, created, deleted}
and the changed flag is monotone — once true it is never reset. -/
theorem claim_C9_status_enum_changed_monotone :
    (∀ (ip cid : Option String) (asn : Option Int) (ty : Option String)
      (tags : List (String × String)),
      (cgwInitState ip cid asn ty tags).changed = false ∧
      (cgwInitState ip cid asn ty tags).status = "gone" ∧
      statusOk (cgwInitState ip cid asn ty tags).status = true) ∧
    (∀ (env : CgwEnv) (s s2 : CgwState) (ops : List Op),
      statusOk s.status = true → cgwRunOps env s ops = .ok s2 →
        statusOk s2.status = true ∧
        (s.changed = true → s2.changed = true)) ∧
    (∀ (gid ty az vpc : Option String) (rtids : List String)
      (tags : List (String × String)),
      (vgwInitState gid ty az vpc rtids tags).changed = false ∧
      (vgwInitState gid ty az vpc rtids tags).status = "gone" ∧
      statusOk (vgwInitState gid ty az vpc rtids tags).status = true) ∧
    (∀ (env : VgwEnv) (s s2 : VgwState) (ops : List Op),
      statusOk s.status = true → vgwRunOps env s ops = .ok s2 →
        statusOk s2.status = true ∧
        (s.changed = true → s2.changed = true)) ∧
    (∀ (vid ty cgwId vgwId vpc : Option String) (sro : Option Bool)
      (routes : List String) (tags : List (String × String)),
      (vconnInitState vid ty cgwId vgwId vpc sro routes tags).changed = false ∧
      (vconnInitState vid ty cgwId vgwId vpc sro routes tags).status = "gone" ∧
      statusOk (vconnInitState vid ty cgwId vgwId vpc sro routes tags).status
        = true) ∧
    (∀ (env : VconnEnv) (s s2 : VconnState) (ops : List Op),
      statusOk s.status = true → vconnRunOps env s ops = .ok s2 →
        statusOk s2.status = true ∧
        (s.changed = true → s2.changed = true)) := by
  refine ⟨?_, ?_, ?_, ?_, ?_, ?_⟩
  · intro ip cid asn ty tags
    exact ⟨rfl, rfl, rfl⟩
  · intro env s s2 ops hs h
    exact cgwRunOps_preserves env ops s s2 hs h
  · intro gid ty az vpc rtids tags
    exact ⟨rfl, rfl, rfl⟩
  · intro env s s2 ops hs h
    exact vgwRunOps_preserves env ops s s2 hs h
  · intro vid ty cgwId vgwId vpc sro routes tags
    exact ⟨rfl, rfl, rfl⟩
  · intro env s s2 ops hs h
    exact vconnRunOps_preserves env ops s s2 hs h

def opsLE : List Op := [Op.lookup, Op.ensureOk, Op.getInfo]

def sVgw2 : VgwState :=
  { sVgw1 with changed := true, attach_status := "attached" }

def sVconn2 : VconnState :=
  { sVconn1 with changed := true, status := "deleted" }

/-- Witness for C9 at concrete inputs: a lookup-then-ensure_ok run for
each kind (customer gateway keeps the found state; the VPN gateway also
attaches, setting changed; the VPN connection run deletes). -/
theorem claim_C9_witness :
    ((cgwInitState none none none none tagsName).changed = false ∧
      (cgwInitState none none none none tagsName).status = "gone" ∧
      statusOk (cgwInitState none none none none tagsName).status = true) ∧
    (statusOk sCgw0.status = true ∧
      cgwRunOps envCgwFind sCgw0 opsLE = .ok sCgw1 ∧
      (statusOk sCgw1.status = true ∧
        (sCgw0.changed = true → sCgw1.changed = true))) ∧
    (statusOk sVgw0.status = true ∧
      vgwRunOps envVgwFind sVgw0 [Op.lookup, Op.ensureOk] = .ok sVgw2 ∧
      (statusOk sVgw2.status = true ∧
        (sVgw0.changed = true → sVgw2.changed = true))) ∧
    (statusOk sVconn0.status = true ∧
      vconnRunOps envVconnFind sVconn0 [Op.lookup, Op.ensureGone] = .ok sVconn2 ∧
      (statusOk sVconn2.status = true ∧
        (sVconn0.changed = true → sVconn2.changed = true))) :=
  ⟨claim_C9_status_enum_changed_monotone.1 none none none none tagsName,
   ⟨rfl, rfl,
    claim_C9_status_enum_changed_monotone.2.1 envCgwFind sCgw0 sCgw1 opsLE
      rfl rfl⟩,
   ⟨rfl, rfl,
    claim_C9_status_enum_changed_monotone.2.2.2.1 envVgwFind sVgw0 sVgw2
      [Op.lookup, Op.ensureOk] rfl rfl⟩,
   ⟨rfl, rfl,
    claim_C9_status_enum_changed_monotone.2.2.2.2.2 envVconnFind sVconn0
      sVconn2 [Op.lookup, Op.ensureGone] rfl rfl⟩⟩
